import Mathlib

/-!
# PGBL/VGBL portal — shallow embedding of the accounting/settlement core

This file embeds, in Lean 4, the core of the retirement-plan simulation
portal: the data-access layer (`models.py`), the tax module
(`tax_engine.py`) and the request executors of the time-evolution engine
(`time_engine.py`).  IEEE-754 doubles of the source are modelled as exact
rationals (`ℚ`); SQL tables are modelled as lists of rows; `YYYY-MM-DD`
date strings as a year/month/day structure whose `key` ordering coincides
with the lexicographic string order the SQL queries rely on; and the
per-request SAVEPOINT discipline of `_process_all_pending_requests` as an
`Except`-valued executor whose error branch restores the pre-request store.

Python's `round(x, 2)` (round-half-to-even) is modelled exactly on `ℚ`.
The write-only `lot_allocations` audit table, which no core logic ever
reads, is not modelled.  `get_brokerage_cash`'s `INSERT OR IGNORE` of a
zero-cash row on a missing account is value-neutral and is modelled as a
pure read.
-/

namespace Portal

/-- `1e-9`, the unit-dust threshold used throughout the source. -/
def EPS_UNITS : ℚ := 1 / 1000000000

/-- `0.01`, the currency-dust threshold in `consume_lots_fifo`. -/
def EPS_CENTS : ℚ := 1 / 100

/-- `1e-4`, the FIFO shortfall tolerance in `consume_lots_fifo`. -/
def EPS_SHORTFALL : ℚ := 1 / 10000

/-- `1e-6`, the divergence threshold in `reconcile_certificate_units`. -/
def EPS_RECONCILE : ℚ := 1 / 1000000

/-- Python's `round(q, 2)`: round `100*q` half-to-even, divide by 100. -/
def round2 (q : ℚ) : ℚ :=
  let x := q * 100
  let f : ℤ := ⌊x⌋
  let frac := x - (f : ℚ)
  let r : ℤ :=
    if frac < 1/2 then f
    else if frac > 1/2 then f + 1
    else if f % 2 = 0 then f else f + 1
  (r : ℚ) / 100

/-! ## Dates (`YYYY-MM-DD` strings in the source) -/

/-- A calendar date; mirrors the `YYYY-MM-DD` strings of the source. -/
structure Date where
  y : ℕ
  m : ℕ
  d : ℕ
deriving DecidableEq, Repr

/-- Lexicographic key; for well-formed dates it matches the string order
used by SQL `ORDER BY contribution_date` and Python date comparison. -/
def Date.key (dt : Date) : ℕ := dt.y * 10000 + dt.m * 100 + dt.d

/-- Gregorian leap-year rule, as in Python's `calendar`/`datetime`. -/
def isLeapYear (y : ℕ) : Bool := (y % 4 == 0 && y % 100 != 0) || y % 400 == 0

/-- Number of days in a month. -/
def daysInMonth (y m : ℕ) : ℕ :=
  if m = 2 then (if isLeapYear y then 29 else 28)
  else if m = 4 ∨ m = 6 ∨ m = 9 ∨ m = 11 then 30
  else 31

/-- `dateutil.relativedelta(years := n)` addition: add `n` to the year and
clamp the day to the target month's length (so `2024-02-29 + 2y` is
`2026-02-28`). -/
def Date.addYears (dt : Date) (n : ℕ) : Date :=
  ⟨dt.y + n, dt.m, min dt.d (daysInMonth (dt.y + n) dt.m)⟩

/-- `dateutil.relativedelta(years := n)` subtraction, with day clamping. -/
def Date.subYears (dt : Date) (n : ℕ) : Date :=
  ⟨dt.y - n, dt.m, min dt.d (daysInMonth (dt.y - n) dt.m)⟩

/-- The day after a date (`+ timedelta(days=1)` for valid dates). -/
def Date.nextDay (dt : Date) : Date :=
  if dt.d < daysInMonth dt.y dt.m then ⟨dt.y, dt.m, dt.d + 1⟩
  else if dt.m < 12 then ⟨dt.y, dt.m + 1, 1⟩
  else ⟨dt.y + 1, 1, 1⟩

/-! ## Tax engine: regressive brackets (`tax_engine.py`) -/

/-- `REGRESSIVE_YEAR_BRACKETS`: (years, rate) pairs. -/
def REGRESSIVE_YEAR_BRACKETS : List (ℕ × ℚ) :=
  [(2, 35/100), (4, 30/100), (6, 25/100), (8, 20/100), (10, 15/100)]

/-- The bracket scan of `regressive_rate`: first bracket whose
calendar-year boundary is strictly beyond `current_date` wins. -/
def regressiveRateAux (contribution_date current_date : Date) :
    List (ℕ × ℚ) → ℚ
  | [] => 10/100
  | (years, rate) :: rest =>
      if current_date.key < (contribution_date.addYears years).key then rate
      else regressiveRateAux contribution_date current_date rest

/-- `tax_engine.regressive_rate`: calendar-year based rate lookup with a
strict `<` against each leap-adjusted boundary. -/
def regressive_rate (contribution_date current_date : Date) : ℚ :=
  regressiveRateAux contribution_date current_date REGRESSIVE_YEAR_BRACKETS

/-! ## Data model (rows of the relational store) -/

/-- Plan type: the source's `'PGBL'` / `'VGBL'` strings. -/
inductive PlanType
  | pgbl
  | vgbl
deriving DecidableEq, Repr

/-- Tax regime strings `'progressive'` / `'regressive'`; `NULL` is
modelled as `Option.none` at the use sites. -/
inductive TaxRegime
  | progressive
  | regressive
deriving DecidableEq, Repr

/-- Request status strings. -/
inductive ReqStatus
  | pending
  | completed
  | failed
  | rejected
  | cancelled
deriving DecidableEq, Repr

/-- Request type strings. -/
inductive ReqType
  | contribution
  | withdrawal
  | fund_swap
  | portability_out
  | portability_in
  | brokerage_withdrawal
  | transfer_internal
  | transfer_external_out
  | transfer_external_in
deriving DecidableEq, Repr

/-- Lot `source_type` strings. -/
inductive SourceType
  | contribution
  | portability
  | transfer_internal
  | transfer_external
deriving DecidableEq, Repr

/-- A row of `funds` (only the fields the core reads). -/
structure Fund where
  id : ℕ
  current_nav : ℚ
deriving DecidableEq, Repr

/-- A row of `certificates` joined with its plan's type. -/
structure Certificate where
  id : ℕ
  user_id : ℕ
  plan_type : PlanType
  tax_regime : Option TaxRegime
  unit_supply : ℚ
  vgbl_premium_remaining : ℚ
deriving DecidableEq, Repr

/-- A row of `contributions` (a cost-basis lot). -/
structure Lot where
  id : ℕ
  certificate_id : ℕ
  amount : ℚ
  remaining_amount : ℚ
  contribution_date : Date
  source_type : SourceType
  gross_amount : ℚ
  iof_amount : ℚ
  units_total : ℚ
  units_remaining : ℚ
  issue_unit_price : ℚ
deriving DecidableEq, Repr

/-- A row of `holdings` (UNIQUE on (certificate, fund)). -/
structure Holding where
  certificate_id : ℕ
  fund_id : ℕ
  units : ℚ
deriving DecidableEq, Repr

/-- A row of `target_allocations` (UNIQUE on (certificate, fund)). -/
structure TargetAllocation where
  certificate_id : ℕ
  fund_id : ℕ
  pct : ℚ
deriving DecidableEq, Repr

/-- A row of `brokerage_accounts`. -/
structure BrokerageAccount where
  user_id : ℕ
  cash : ℚ
deriving DecidableEq, Repr

/-- The decoded `details` JSON payload of a request. -/
structure RequestDetails where
  amount : Option ℚ
  tax_regime : Option TaxRegime
  destination_cert_id : Option ℕ
  new_allocations : List (ℕ × ℚ)
  source_cert_id : Option ℕ
deriving DecidableEq, Repr

/-- A row of `requests`. -/
structure Request where
  id : ℕ
  user_id : ℕ
  certificate_id : ℕ
  rtype : ReqType
  details : RequestDetails
  status : ReqStatus
  created_date : Date
deriving DecidableEq, Repr

/-- A row of `withdrawals`. -/
structure WithdrawalRow where
  id : ℕ
  certificate_id : ℕ
  gross_amount : ℚ
  tax_withheld : ℚ
  net_amount : ℚ
  withdrawal_date : Date
deriving DecidableEq, Repr

/-- One IOF threshold rule of the `iof_config` sim-state entry. -/
structure IofRule where
  year_from : ℕ
  year_to : ℕ
  limit : ℚ
  rate : ℚ
deriving DecidableEq, Repr

/-- The relational store as seen by the core. -/
structure Store where
  funds : List Fund
  certs : List Certificate
  lots : List Lot
  holdings : List Holding
  target_allocs : List TargetAllocation
  brokerage : List BrokerageAccount
  requests : List Request
  withdrawals : List WithdrawalRow
  iof_declarations : List (ℕ × ℕ × ℚ)
  iof_thresholds : List IofRule
  portin_schedule : List (ℚ × ℕ)
  portin_gain_pct : ℚ
  next_lot_id : ℕ
  next_withdrawal_id : ℕ
deriving DecidableEq, Repr

/-! ## Data-access layer (`models.py`) -/

/-- `SELECT * FROM funds WHERE id = ?`. -/
def findFund (s : Store) (fid : ℕ) : Option Fund :=
  s.funds.find? (fun f => f.id == fid)

/-- NAV of a fund; a missing fund contributes 0 (its JOINed rows vanish). -/
def navOf (s : Store) (fid : ℕ) : ℚ :=
  match findFund s fid with
  | some f => f.current_nav
  | none => 0

/-- `models.get_certificate`. -/
def get_certificate (s : Store) (cid : ℕ) : Option Certificate :=
  s.certs.find? (fun c => c.id == cid)

/-- Holdings rows of one certificate. -/
def certHoldings (s : Store) (cid : ℕ) : List Holding :=
  s.holdings.filter (fun h => h.certificate_id == cid)

/-- `models.get_certificate_total_value`: Σ units × NAV. -/
def get_certificate_total_value (s : Store) (cid : ℕ) : ℚ :=
  ((certHoldings s cid).map (fun h => h.units * navOf s h.fund_id)).sum

/-- `models.get_certificate_unit_supply`. -/
def get_certificate_unit_supply (s : Store) (cid : ℕ) : ℚ :=
  match get_certificate s cid with
  | some c => c.unit_supply
  | none => 0

/-- `models.get_vgbl_premium_remaining`. -/
def get_vgbl_premium_remaining (s : Store) (cid : ℕ) : ℚ :=
  match get_certificate s cid with
  | some c => c.vgbl_premium_remaining
  | none => 0

/-- `models.get_certificate_unit_price`: `total_value / unit_supply`,
with 1.0 fallbacks for a dust supply, a non-positive total value, or a
missing certificate. -/
def get_certificate_unit_price (s : Store) (cid : ℕ) : ℚ :=
  match get_certificate s cid with
  | none => 1
  | some cert =>
      if cert.unit_supply ≤ EPS_UNITS then 1
      else
        let total_value := get_certificate_total_value s cid
        if total_value ≤ 0 then 1 else total_value / cert.unit_supply

/-- `UPDATE certificates ... WHERE id = ?` helper. -/
def updCert (s : Store) (cid : ℕ) (f : Certificate → Certificate) : Store :=
  { s with certs := s.certs.map (fun c => if c.id == cid then f c else c) }

/-- `models.update_certificate_units`: `unit_supply := max(0, supply + δ)`. -/
def update_certificate_units (s : Store) (cid : ℕ) (delta : ℚ) : Store :=
  updCert s cid (fun c => { c with unit_supply := max 0 (c.unit_supply + delta) })

/-- `models.update_vgbl_premium_remaining`:
`vgbl_premium_remaining := max(0, P_rem + δ)`. -/
def update_vgbl_premium_remaining (s : Store) (cid : ℕ) (delta : ℚ) : Store :=
  updCert s cid
    (fun c => { c with vgbl_premium_remaining := max 0 (c.vgbl_premium_remaining + delta) })

/-- `models.set_tax_regime`. -/
def set_tax_regime (s : Store) (cid : ℕ) (regime : TaxRegime) : Store :=
  updCert s cid (fun c => { c with tax_regime := some regime })

/-- `models.set_holding`: delete the row when `units ≤ 1e-9`, else upsert. -/
def set_holding (s : Store) (cid fid : ℕ) (units : ℚ) : Store :=
  if units ≤ EPS_UNITS then
    { s with holdings :=
        s.holdings.filter (fun h => !(h.certificate_id == cid && h.fund_id == fid)) }
  else if s.holdings.any (fun h => h.certificate_id == cid && h.fund_id == fid) then
    { s with holdings :=
        s.holdings.map (fun h =>
          if h.certificate_id == cid && h.fund_id == fid then { h with units := units } else h) }
  else
    { s with holdings := s.holdings ++ [⟨cid, fid, units⟩] }

/-- `models.get_brokerage_cash` (the `INSERT OR IGNORE` of a 0.0 row on a
missing account is value-neutral; modelled as a pure read). -/
def get_brokerage_cash (s : Store) (uid : ℕ) : ℚ :=
  match s.brokerage.find? (fun b => b.user_id == uid) with
  | some b => b.cash
  | none => 0

/-- `models.set_brokerage_cash` (upsert). -/
def set_brokerage_cash (s : Store) (uid : ℕ) (amt : ℚ) : Store :=
  if s.brokerage.any (fun b => b.user_id == uid) then
    { s with brokerage :=
        s.brokerage.map (fun b => if b.user_id == uid then { b with cash := amt } else b) }
  else
    { s with brokerage := s.brokerage ++ [⟨uid, amt⟩] }

/-- `models.add_brokerage_cash`. -/
def add_brokerage_cash (s : Store) (uid : ℕ) (amt : ℚ) : Store :=
  set_brokerage_cash s uid (get_brokerage_cash s uid + amt)

/-- `models.fail_request`. -/
def fail_request (s : Store) (rid : ℕ) : Store :=
  { s with requests :=
      s.requests.map (fun q => if q.id == rid then { q with status := ReqStatus.failed } else q) }

/-- `models.complete_request`. -/
def complete_request (s : Store) (rid : ℕ) : Store :=
  { s with requests :=
      s.requests.map (fun q => if q.id == rid then { q with status := ReqStatus.completed } else q) }

/-- `models.add_contribution` (all parameters explicit, as the executors
always pass them). -/
def add_contribution (s : Store) (cid : ℕ) (amount : ℚ) (contribution_date : Date)
    (source_type : SourceType) (remaining_amount units_total units_remaining
    issue_unit_price gross_amount iof_amount : ℚ) : Store :=
  { s with
      lots := s.lots ++
        [⟨s.next_lot_id, cid, amount, remaining_amount, contribution_date, source_type,
          gross_amount, iof_amount, units_total, units_remaining, issue_unit_price⟩],
      next_lot_id := s.next_lot_id + 1 }

/-- `models.add_withdrawal`; returns the new row's id. -/
def add_withdrawal (s : Store) (cid : ℕ) (gross tax net : ℚ) (wdate : Date) :
    Store × ℕ :=
  ({ s with
       withdrawals := s.withdrawals ++
         [⟨s.next_withdrawal_id, cid, gross, tax, net, wdate⟩],
       next_withdrawal_id := s.next_withdrawal_id + 1 },
   s.next_withdrawal_id)

/-- `models.get_target_allocations` (rows of one certificate). -/
def get_target_allocations (s : Store) (cid : ℕ) : List TargetAllocation :=
  s.target_allocs.filter (fun t => t.certificate_id == cid)

/-- `models.set_target_allocations`: drop non-positive pcts, validate each
pct and the 100% total, then DELETE + INSERT.  A duplicate fund id would
violate the table's UNIQUE constraint and raise, modelled as an error. -/
def set_target_allocations (s : Store) (cid : ℕ) (allocations : List (ℕ × ℚ)) :
    Except String Store :=
  let filtered := allocations.filter (fun a => a.2 > 0)
  if filtered.any (fun a => decide (a.2 < 0) || decide (a.2 > 100)) then
    Except.error "invalid allocation pct"
  else
    let total_pct := (filtered.map (fun a => a.2)).sum
    if !filtered.isEmpty && decide (|total_pct - 100| > (1/100 : ℚ)) then
      Except.error "allocation percentages must sum to 100"
    else if !(filtered.map (fun a => a.1)).Nodup then
      Except.error "UNIQUE constraint failed"
    else
      Except.ok
        { s with target_allocs :=
            s.target_allocs.filter (fun t => !(t.certificate_id == cid)) ++
              filtered.map (fun a => ⟨cid, a.1, a.2⟩) }

/-! ## FIFO lot consumption (`models.consume_lots_fifo`) -/

/-- One entry of the list `consume_lots_fifo` returns. -/
structure ConsumedLot where
  contribution_id : ℕ
  units_consumed : ℚ
  consumed_amount : ℚ
  contribution_date : Date
  original_amount : ℚ
  units_remaining_after : ℚ
  remaining_after : ℚ
  source_type : SourceType
deriving DecidableEq, Repr

/-- `(creation_date, id)` ascending, the FIFO order of the SQL query. -/
def lotLE (a b : Lot) : Bool :=
  a.contribution_date.key < b.contribution_date.key ||
    (a.contribution_date.key == b.contribution_date.key && a.id ≤ b.id)

/-- Insertion into a sorted list (stable for the strict keys used here). -/
def insertSorted (le : α → α → Bool) (x : α) : List α → List α
  | [] => [x]
  | y :: ys => if le x y then x :: y :: ys else y :: insertSorted le x ys

/-- Insertion sort, standing in for SQL `ORDER BY`. -/
def sortByLe (le : α → α → Bool) : List α → List α
  | [] => []
  | x :: xs => insertSorted le x (sortByLe le xs)

/-- The lots `consume_lots_fifo` selects: `units_remaining > 1e-9`,
ordered by `(contribution_date, id)`. -/
def list_lots_fifo (s : Store) (cid : ℕ) : List Lot :=
  sortByLe lotLE
    (s.lots.filter (fun l => l.certificate_id == cid && decide (l.units_remaining > EPS_UNITS)))

/-- The consumption loop of `consume_lots_fifo`.  Returns per-lot
`(id, new_units_remaining, new_remaining_amount)` updates, the consumed
entries, and the unconsumed unit remainder.  The two sequential dust
cleanups of the source (`units < 1e-9` zeroes both; then
`remaining_amount < 0.01` zeroes both) are mirrored exactly. -/
def fifoConsume : List Lot → ℚ → List (ℕ × ℚ × ℚ) × List ConsumedLot × ℚ
  | [], remaining_units => ([], [], remaining_units)
  | c :: rest, remaining_units =>
    if remaining_units ≤ EPS_UNITS then ([], [], remaining_units)
    else
      let available_units := c.units_remaining
      let take_units := min available_units remaining_units
      let new_units_remaining := available_units - take_units
      let consumed_amount :=
        if available_units > EPS_UNITS then
          c.remaining_amount * (take_units / available_units)
        else c.remaining_amount
      let new_remaining_amount := c.remaining_amount - consumed_amount
      let p1 : ℚ × ℚ :=
        if new_units_remaining < EPS_UNITS then (0, 0)
        else (new_units_remaining, new_remaining_amount)
      let p2 : ℚ × ℚ := if p1.2 < EPS_CENTS then (0, 0) else p1
      let entry : ConsumedLot :=
        ⟨c.id, take_units, consumed_amount, c.contribution_date, c.amount,
          p2.1, max 0 p2.2, c.source_type⟩
      let r := fifoConsume rest (remaining_units - take_units)
      ((c.id, p2.1, p2.2) :: r.1, entry :: r.2.1, r.2.2)

/-- Write the per-lot updates back (`UPDATE contributions WHERE id = ?`). -/
def applyLotUpdates (lots : List Lot) (updates : List (ℕ × ℚ × ℚ)) : List Lot :=
  lots.map (fun l =>
    match updates.find? (fun u => u.1 == l.id) with
    | some u => { l with units_remaining := u.2.1, remaining_amount := u.2.2 }
    | none => l)

/-- `models.consume_lots_fifo`: FIFO-consume units, then raise on a
shortfall beyond the `1e-4` tolerance. -/
def consume_lots_fifo (s : Store) (cid : ℕ) (units_to_consume : ℚ) :
    Except String (Store × List ConsumedLot) :=
  let r := fifoConsume (list_lots_fifo s cid) units_to_consume
  let total_consumed := (r.2.1.map (fun e => e.units_consumed)).sum
  if |total_consumed - units_to_consume| > EPS_SHORTFALL ∧ r.2.2 > EPS_SHORTFALL then
    Except.error "FIFO under-consumption"
  else
    Except.ok ({ s with lots := applyLotUpdates s.lots r.1 }, r.2.1)

/-- `models.reconcile_certificate_units` reads this lot sum. -/
def reconcileLotSum (s : Store) (cid : ℕ) : ℚ :=
  ((s.lots.filter (fun l => l.certificate_id == cid)).map (fun l => l.units_remaining)).sum

/-- The `lot_sum` local of `models.reconcile_certificate_units`: the raw
lot sum, normalised to 0 when below the `1e-9` dust threshold. -/
def reconcileLotSumAdj (s : Store) (cid : ℕ) : ℚ :=
  let lot_sum0 := reconcileLotSum s cid
  if lot_sum0 < EPS_UNITS then 0 else lot_sum0

/-- `models.reconcile_certificate_units`: recompute the supply from the
lot sum (normalising a `< 1e-9` sum to 0) and rewrite it only when it
diverges from the stored supply by more than `1e-6`.  Returns the new
store and the `(old_supply, lot_sum)` pair the source returns. -/
def reconcile_certificate_units (s : Store) (cid : ℕ) : Store × ℚ × ℚ :=
  let old_supply := get_certificate_unit_supply s cid
  let lot_sum := reconcileLotSumAdj s cid
  if |old_supply - lot_sum| > EPS_RECONCILE then
    (updCert s cid (fun c => { c with unit_supply := lot_sum }), old_supply, lot_sum)
  else (s, old_supply, lot_sum)

/-! ## IOF (`tax_engine.calculate_iof_vgbl`) -/

/-- `models.get_iof_declaration`. -/
def get_iof_declaration (s : Store) (uid year : ℕ) : ℚ :=
  match s.iof_declarations.find? (fun d => d.1 == uid && d.2.1 == year) with
  | some d => d.2.2
  | none => 0

/-- `models.get_iof_limit_for_year`: first matching threshold rule, with
the `(600000, 0.05)` fallback. -/
def get_iof_limit_for_year (s : Store) (year : ℕ) : ℚ × ℚ :=
  match s.iof_thresholds.find?
      (fun r => decide (r.year_from ≤ year) && decide (year ≤ r.year_to)) with
  | some r => (r.limit, r.rate)
  | none => (600000, 5/100)

/-- The SQL sum in `calculate_iof_vgbl`: same-year `source_type =
'contribution'` lot amounts over the user's VGBL certificates. -/
def userVgblDirectContribs (s : Store) (uid year : ℕ) : ℚ :=
  ((s.lots.filter (fun l =>
      match get_certificate s l.certificate_id with
      | some c =>
          c.user_id == uid && c.plan_type == PlanType.vgbl &&
            l.source_type == SourceType.contribution &&
            decide (year * 10000 + 101 ≤ l.contribution_date.key) &&
            decide (l.contribution_date.key ≤ year * 10000 + 1231)
      | none => false)).map (fun l => l.amount)).sum

/-- `tax_engine.calculate_iof_vgbl`: excess-over-threshold differencing,
rounded to two decimals. -/
def calculate_iof_vgbl (s : Store) (uid : ℕ) (contribution_amount : ℚ)
    (year : ℕ) : ℚ :=
  let lr := get_iof_limit_for_year s year
  let existing := userVgblDirectContribs s uid year
  let declared := get_iof_declaration s uid year
  let total_before := existing + declared
  let total_after := total_before + contribution_amount
  if total_after ≤ lr.1 then 0
  else
    let excess_before := max 0 (total_before - lr.1)
    let excess_after := max 0 (total_after - lr.1)
    round2 ((excess_after - excess_before) * lr.2)

/-! ## Request executors (`time_engine.py`)

Each executor is `Store → Request → Date → Except String Store`.  A
returned `Except.error` models a raised Python exception: the caller
(`_process_all_pending_requests`) rolls back to the pre-request store and
marks the request failed.  A returned `Except.ok` models a normal return;
the executor has already set the request's terminal status itself. -/

/-- `time_engine._sell_holdings`: sell proportionally across funds to
raise `amount`; `none` models the `False` (insufficient funds) return. -/
def _sell_holdings (s : Store) (cid : ℕ) (amount : ℚ) : Option Store :=
  let holdings := certHoldings s cid
  let total_holdings_value := (holdings.map (fun h => h.units * navOf s h.fund_id)).sum
  if amount > total_holdings_value * (1001/1000) then none
  else if total_holdings_value ≤ EPS_UNITS then none
  else
    let sell_fraction := min 1 (amount / total_holdings_value)
    some (holdings.foldl
      (fun st h =>
        if h.units ≤ EPS_UNITS then st
        else set_holding st cid h.fund_id (h.units - h.units * sell_fraction))
      s)

/-- `time_engine._buy_into_certificate`: buy per target allocation
(normalised); raises when no target allocations are set. -/
def _buy_into_certificate (s : Store) (cid : ℕ) (amount : ℚ) :
    Except String Store :=
  let target_allocs := get_target_allocations s cid
  if target_allocs.isEmpty then Except.error "no target allocations set"
  else
    let total_pct := (target_allocs.map (fun t => t.pct)).sum
    if total_pct ≤ 0 then Except.ok s
    else
      Except.ok (target_allocs.foldl
        (fun st ta =>
          match findFund st ta.fund_id with
          | none => st
          | some fund =>
            if fund.current_nav ≤ 0 then st
            else
              let alloc_amount := amount * (ta.pct / total_pct)
              let units := alloc_amount / fund.current_nav
              let existing :=
                match st.holdings.find?
                    (fun h => h.certificate_id == cid && h.fund_id == ta.fund_id) with
                | some h => h.units
                | none => 0
              set_holding st cid ta.fund_id (existing + units))
        s)

/-- `time_engine._execute_fund_swap`: update the target allocations, sell
everything, buy the new mix.  Touches no lots. -/
def _execute_fund_swap (s : Store) (req : Request) (current_date : Date) :
    Except String Store :=
  let cert_id := req.certificate_id
  match get_certificate s cert_id with
  | none => Except.ok (fail_request s req.id)
  | some cert =>
    if cert.user_id ≠ req.user_id then Except.error "certificate ownership mismatch"
    else
      let new_allocs := req.details.new_allocations
      if new_allocs.isEmpty then Except.ok (fail_request s req.id)
      else
        let total_pct := ((new_allocs.filter (fun a => a.2 > 0)).map (fun a => a.2)).sum
        if total_pct ≤ 0 then Except.ok (fail_request s req.id)
        else
          match set_target_allocations s cert_id new_allocs with
          | Except.error e => Except.error e
          | Except.ok s1 =>
            let holdings := certHoldings s1 cert_id
            let total_cash := (holdings.map (fun h => h.units * navOf s1 h.fund_id)).sum
            let s2 := holdings.foldl (fun st h => set_holding st cert_id h.fund_id 0) s1
            let s3 := new_allocs.foldl
              (fun st a =>
                match findFund st a.1 with
                | none => st
                | some fund =>
                  if fund.current_nav ≤ 0 then st
                  else
                    let target_amount := total_cash * (a.2 / total_pct)
                    let units := target_amount / fund.current_nav
                    if units > EPS_UNITS then set_holding st cert_id a.1 units else st)
              s2
            Except.ok (complete_request s3 req.id)

/-- The body of `_execute_withdrawal` after the tax-regime step: value the
certificate, sell, FIFO-consume, tax per lot, and settle.  `cert` is the
certificate row as re-read after any regime write. -/
def withdrawalCore (s1 : Store) (cert : Certificate) (req : Request)
    (current_date : Date) : Except String Store :=
  let cert_id := req.certificate_id
  let total_value := get_certificate_total_value s1 cert_id
  let amount := min (req.details.amount.getD 0) total_value
  let unit_price := get_certificate_unit_price s1 cert_id
  let units_to_redeem := if unit_price > 0 then amount / unit_price else 0
  match _sell_holdings s1 cert_id amount with
  | none => Except.ok (fail_request s1 req.id)
  | some s2 =>
    match consume_lots_fifo s2 cert_id units_to_redeem with
    | Except.error e => Except.error e
    | Except.ok (s3, consumed_lots) =>
      let P_rem := get_vgbl_premium_remaining s3 cert_id
      let taxable_total :=
        if cert.plan_type = PlanType.vgbl ∧ total_value > 0 then
          amount * max 0 (1 - P_rem / total_value)
        else 0
      let lotTax : ConsumedLot → ℚ := fun lot =>
        let lot_gross_value := lot.units_consumed * unit_price
        let rate :=
          if cert.tax_regime = some TaxRegime.regressive then
            regressive_rate lot.contribution_date current_date
          else 15/100
        let taxable :=
          if cert.plan_type = PlanType.pgbl then lot_gross_value
          else if amount > 0 then (lot_gross_value / amount) * taxable_total
          else 0
        taxable * rate
      let total_tax := round2 ((consumed_lots.map lotTax).sum)
      let net_amount := amount - total_tax
      let s4 := (add_withdrawal s3 cert_id amount total_tax net_amount current_date).1
      let s5 :=
        if cert.plan_type = PlanType.vgbl ∧ total_value > 0 then
          update_vgbl_premium_remaining s4 cert_id
            (-(amount * min 1 (max 0 (P_rem / total_value))))
        else s4
      let s6 := update_certificate_units s5 cert_id (-units_to_redeem)
      let s7 := add_brokerage_cash s6 req.user_id net_amount
      Except.ok (complete_request s7 req.id)

/-- `time_engine._execute_withdrawal`: unit-based FIFO withdrawal with
per-lot tax; sets the tax regime from the request when still unset, and
the amount clamp `min(amount, total_value)` happens in `withdrawalCore`. -/
def _execute_withdrawal (s : Store) (req : Request) (current_date : Date) :
    Except String Store :=
  let cert_id := req.certificate_id
  match get_certificate s cert_id with
  | none => Except.ok (fail_request s req.id)
  | some cert0 =>
    if cert0.user_id ≠ req.user_id then Except.error "certificate ownership mismatch"
    else
      let amount0 := req.details.amount.getD 0
      if amount0 ≤ 0 then Except.ok (fail_request s req.id)
      else
        match cert0.tax_regime with
        | some _ => withdrawalCore s cert0 req current_date
        | none =>
          match req.details.tax_regime with
          | some r =>
            withdrawalCore (set_tax_regime s cert_id r)
              { cert0 with tax_regime := some r } req current_date
          | none => Except.ok (fail_request s req.id)

/-- `time_engine._execute_contribution`: deduct brokerage cash, apply IOF
for VGBL, issue certificate units at the pre-investment price, buy funds. -/
def _execute_contribution (s : Store) (req : Request) (current_date : Date) :
    Except String Store :=
  let cert_id := req.certificate_id
  match get_certificate s cert_id with
  | none => Except.ok (fail_request s req.id)
  | some cert =>
    if cert.user_id ≠ req.user_id then Except.error "certificate ownership mismatch"
    else
      let amount := req.details.amount.getD 0
      if amount ≤ 0 then Except.ok (fail_request s req.id)
      else
        let brokerage_cash := get_brokerage_cash s req.user_id
        if brokerage_cash < amount then Except.ok (fail_request s req.id)
        else
          let s1 := set_brokerage_cash s req.user_id (brokerage_cash - amount)
          let iof :=
            if cert.plan_type = PlanType.vgbl then
              calculate_iof_vgbl s1 req.user_id amount current_date.y
            else 0
          let net_invest := if iof > 0 then amount - iof else amount
          if net_invest ≤ 0 then
            Except.ok (fail_request (set_brokerage_cash s1 req.user_id brokerage_cash) req.id)
          else
            let unit_price := get_certificate_unit_price s1 cert_id
            let units_issued := net_invest / unit_price
            let s2 := add_contribution s1 cert_id net_invest current_date
              SourceType.contribution net_invest units_issued units_issued unit_price
              amount iof
            let s3 := update_certificate_units s2 cert_id units_issued
            let s4 :=
              if cert.plan_type = PlanType.vgbl then
                update_vgbl_premium_remaining s3 cert_id net_invest
              else s3
            match _buy_into_certificate s4 cert_id net_invest with
            | Except.error e => Except.error e
            | Except.ok s5 => Except.ok (complete_request s5 req.id)

/-- `source['tax_regime'] and dest['tax_regime'] and source != dest`. -/
def regimeMismatch (source dest : Certificate) : Bool :=
  match source.tax_regime, dest.tax_regime with
  | some r1, some r2 => r1 ≠ r2
  | _, _ => false

/-- The regime inheritance step shared by portability and internal
transfer: copy the source regime onto an unset destination. -/
def inheritRegime (s : Store) (source dest : Certificate) : Store :=
  match source.tax_regime, dest.tax_regime with
  | some r, none => set_tax_regime s dest.id r
  | _, _ => s

/-- Recreate consumed lots at a destination certificate with their
original dates (shared tail of portability and internal transfer). -/
def recreateLots (s : Store) (dest_cert_id : ℕ) (consumed_lots : List ConsumedLot)
    (amount total_dest_units dest_unit_price prem_to_move : ℚ)
    (vgbl : Bool) (src_type : SourceType) : Store :=
  let total_consumed_units := (consumed_lots.map (fun l => l.units_consumed)).sum
  consumed_lots.foldl
    (fun st lot =>
      let lot_fraction :=
        if total_consumed_units > EPS_UNITS then lot.units_consumed / total_consumed_units
        else 1 / ((max 1 consumed_lots.length : ℕ) : ℚ)
      let dest_lot_units := total_dest_units * lot_fraction
      let dest_lot_gross := amount * lot_fraction
      let dest_lot_remaining :=
        if vgbl ∧ prem_to_move > 0 then prem_to_move * lot_fraction
        else lot.consumed_amount
      add_contribution st dest_cert_id dest_lot_gross lot.contribution_date src_type
        dest_lot_remaining dest_lot_units dest_lot_units dest_unit_price
        dest_lot_gross 0)
    s

/-- `time_engine._execute_portability` (legacy portability-out). -/
def _execute_portability (s : Store) (req : Request) (current_date : Date) :
    Except String Store :=
  let source_cert_id := req.certificate_id
  match req.details.destination_cert_id with
  | none => Except.ok (fail_request s req.id)
  | some dest_cert_id =>
    match get_certificate s source_cert_id, get_certificate s dest_cert_id with
    | some source_cert, some dest_cert =>
      if source_cert.user_id ≠ req.user_id then Except.error "certificate ownership mismatch"
      else if dest_cert.user_id ≠ req.user_id then Except.error "certificate ownership mismatch"
      else if (get_target_allocations s dest_cert_id).isEmpty then
        Except.ok (fail_request s req.id)
      else if source_cert.plan_type ≠ dest_cert.plan_type then
        Except.ok (fail_request s req.id)
      else if regimeMismatch source_cert dest_cert then
        Except.ok (fail_request s req.id)
      else
        let s1 := inheritRegime s source_cert dest_cert
        let source_value := get_certificate_total_value s1 source_cert_id
        let amount := min (req.details.amount.getD source_value) source_value
        let src_unit_price := get_certificate_unit_price s1 source_cert_id
        let units_to_transfer := if src_unit_price > 0 then amount / src_unit_price else 0
        match _sell_holdings s1 source_cert_id amount with
        | none => Except.ok (fail_request s1 req.id)
        | some s2 =>
          match consume_lots_fifo s2 source_cert_id units_to_transfer with
          | Except.error e => Except.error e
          | Except.ok (s3, consumed_lots) =>
            let s4 := update_certificate_units s3 source_cert_id (-units_to_transfer)
            let dest_unit_price := get_certificate_unit_price s4 dest_cert_id
            let total_dest_units :=
              if dest_unit_price > 0 then amount / dest_unit_price else amount
            let vgbl := source_cert.plan_type = PlanType.vgbl
            let src_P_rem := get_vgbl_premium_remaining s4 source_cert_id
            let prem_to_move :=
              if vgbl ∧ source_value > EPS_UNITS then
                amount * min 1 (max 0 (src_P_rem / source_value))
              else 0
            let s5 :=
              if vgbl ∧ source_value > EPS_UNITS then
                update_vgbl_premium_remaining
                  (update_vgbl_premium_remaining s4 source_cert_id (-prem_to_move))
                  dest_cert_id prem_to_move
              else s4
            let s6 := recreateLots s5 dest_cert_id consumed_lots amount total_dest_units
              dest_unit_price prem_to_move vgbl SourceType.portability
            let s7 := update_certificate_units s6 dest_cert_id total_dest_units
            match _buy_into_certificate s7 dest_cert_id amount with
            | Except.error e => Except.error e
            | Except.ok s8 =>
              let in_ids := (s8.requests.filter (fun q =>
                  q.rtype == ReqType.portability_in && q.status == ReqStatus.pending &&
                    q.certificate_id == dest_cert_id &&
                    q.details.source_cert_id == some source_cert_id)).map (fun q => q.id)
              let s9 := in_ids.foldl (fun st rid => complete_request st rid) s8
              Except.ok (complete_request s9 req.id)
    | _, _ => Except.ok (fail_request s req.id)

/-- `time_engine._execute_brokerage_withdrawal`. -/
def _execute_brokerage_withdrawal (s : Store) (req : Request) (current_date : Date) :
    Except String Store :=
  let amount := req.details.amount.getD 0
  if amount ≤ 0 then Except.ok (fail_request s req.id)
  else
    let current_cash := get_brokerage_cash s req.user_id
    if current_cash < amount then Except.ok (fail_request s req.id)
    else
      Except.ok (complete_request
        (set_brokerage_cash s req.user_id (current_cash - amount)) req.id)

/-- `time_engine._execute_transfer_internal`. -/
def _execute_transfer_internal (s : Store) (req : Request) (current_date : Date) :
    Except String Store :=
  let source_cert_id := req.certificate_id
  match req.details.destination_cert_id.bind (get_certificate s),
      get_certificate s source_cert_id with
  | some dest, some source =>
    if source.user_id ≠ req.user_id then Except.error "certificate ownership mismatch"
    else if dest.user_id ≠ req.user_id then Except.error "certificate ownership mismatch"
    else if (get_target_allocations s dest.id).isEmpty then
      Except.ok (fail_request s req.id)
    else if source.plan_type ≠ dest.plan_type then
      Except.ok (fail_request s req.id)
    else if regimeMismatch source dest then
      Except.ok (fail_request s req.id)
    else
      let s1 := inheritRegime s source dest
      let source_value := get_certificate_total_value s1 source_cert_id
      let amount := min (req.details.amount.getD 0) source_value
      if amount ≤ 0 then Except.ok (fail_request s1 req.id)
      else
        let src_unit_price := get_certificate_unit_price s1 source_cert_id
        let units_to_transfer := if src_unit_price > 0 then amount / src_unit_price else 0
        match _sell_holdings s1 source_cert_id amount with
        | none => Except.ok (fail_request s1 req.id)
        | some s2 =>
          match consume_lots_fifo s2 source_cert_id units_to_transfer with
          | Except.error e => Except.error e
          | Except.ok (s3, consumed_lots) =>
            let s4 := update_certificate_units s3 source_cert_id (-units_to_transfer)
            let dest_unit_price := get_certificate_unit_price s4 dest.id
            let total_dest_units :=
              if dest_unit_price > 0 then amount / dest_unit_price else amount
            let vgbl := source.plan_type = PlanType.vgbl
            let src_P_rem := get_vgbl_premium_remaining s4 source_cert_id
            let prem_to_move :=
              if vgbl ∧ source_value > 0 then
                amount * min 1 (max 0 (src_P_rem / source_value))
              else 0
            let s5 :=
              if vgbl then
                update_vgbl_premium_remaining
                  (update_vgbl_premium_remaining s4 source_cert_id (-prem_to_move))
                  dest.id prem_to_move
              else s4
            let s6 := recreateLots s5 dest.id consumed_lots amount total_dest_units
              dest_unit_price prem_to_move vgbl SourceType.transfer_internal
            let s7 := update_certificate_units s6 dest.id total_dest_units
            match _buy_into_certificate s7 dest.id amount with
            | Except.error e => Except.error e
            | Except.ok s8 => Except.ok (complete_request s8 req.id)
  | _, _ => Except.ok (fail_request s req.id)

/-- `time_engine._execute_transfer_external_out`. -/
def _execute_transfer_external_out (s : Store) (req : Request) (current_date : Date) :
    Except String Store :=
  let cert_id := req.certificate_id
  match get_certificate s cert_id with
  | none => Except.ok (fail_request s req.id)
  | some cert =>
    if cert.user_id ≠ req.user_id then Except.error "certificate ownership mismatch"
    else
      let cert_value := get_certificate_total_value s cert_id
      let amount := min (req.details.amount.getD 0) cert_value
      if amount ≤ 0 then Except.ok (fail_request s req.id)
      else
        let unit_price := get_certificate_unit_price s cert_id
        let units_to_redeem := if unit_price > 0 then amount / unit_price else 0
        match _sell_holdings s cert_id amount with
        | none => Except.ok (fail_request s req.id)
        | some s1 =>
          match consume_lots_fifo s1 cert_id units_to_redeem with
          | Except.error e => Except.error e
          | Except.ok (s2, _) =>
            let s3 := update_certificate_units s2 cert_id (-units_to_redeem)
            let s4 :=
              if cert.plan_type = PlanType.vgbl ∧ cert_value > EPS_UNITS then
                let P_rem := get_vgbl_premium_remaining s3 cert_id
                update_vgbl_premium_remaining s3 cert_id
                  (-(amount * min 1 (max 0 (P_rem / cert_value))))
              else s3
            Except.ok (complete_request s4 req.id)

/-- `time_engine._execute_transfer_external_in`: backdated lots per the
configurable schedule, embedded-gain premium basis for VGBL. -/
def _execute_transfer_external_in (s : Store) (req : Request) (current_date : Date) :
    Except String Store :=
  let cert_id := req.certificate_id
  match get_certificate s cert_id with
  | none => Except.ok (fail_request s req.id)
  | some cert =>
    if cert.user_id ≠ req.user_id then Except.error "certificate ownership mismatch"
    else if (get_target_allocations s cert_id).isEmpty then
      Except.ok (fail_request s req.id)
    else
      let amount := req.details.amount.getD 0
      if amount ≤ 0 then Except.ok (fail_request s req.id)
      else
        let schedule := s.portin_schedule
        let embedded_gain_pct := s.portin_gain_pct
        let unit_price := get_certificate_unit_price s cert_id
        let total_units := amount / unit_price
        let schedule_total_pct := (schedule.map (fun t => t.1)).sum
        if |schedule_total_pct - 100| > 1/100 then Except.ok (fail_request s req.id)
        else
          let s1 := schedule.foldl
            (fun st tranche =>
              let tranche_pct := tranche.1 / 100
              let tranche_amount := amount * tranche_pct
              let tranche_units := total_units * tranche_pct
              if tranche_amount ≤ 0 then st
              else
                let contrib_date := current_date.subYears tranche.2
                let tranche_remaining :=
                  if cert.plan_type = PlanType.vgbl then tranche_amount * embedded_gain_pct
                  else tranche_amount
                add_contribution st cert_id tranche_amount contrib_date
                  SourceType.transfer_external tranche_remaining tranche_units
                  tranche_units unit_price tranche_amount 0)
            s
          let s2 := update_certificate_units s1 cert_id total_units
          let s3 :=
            if cert.plan_type = PlanType.vgbl then
              update_vgbl_premium_remaining s2 cert_id (amount * embedded_gain_pct)
            else s2
          match _buy_into_certificate s3 cert_id amount with
          | Except.error e => Except.error e
          | Except.ok s4 => Except.ok (complete_request s4 req.id)

/-- The executor dispatch table of `_process_all_pending_requests`;
`portability_in` has no executor (it is completed by `portability_out`). -/
def executorFor : ReqType → Option (Store → Request → Date → Except String Store)
  | ReqType.fund_swap => some _execute_fund_swap
  | ReqType.withdrawal => some _execute_withdrawal
  | ReqType.contribution => some _execute_contribution
  | ReqType.portability_out => some _execute_portability
  | ReqType.brokerage_withdrawal => some _execute_brokerage_withdrawal
  | ReqType.transfer_internal => some _execute_transfer_internal
  | ReqType.transfer_external_out => some _execute_transfer_external_out
  | ReqType.transfer_external_in => some _execute_transfer_external_in
  | ReqType.portability_in => none

/-- One iteration of the request loop: SAVEPOINT, execute, and on an
exception roll back to the pre-request store and mark the request failed. -/
def processOne (s : Store) (req : Request) (current_date : Date) : Store :=
  match executorFor req.rtype with
  | none => s
  | some ex =>
    match ex s req current_date with
    | Except.ok s2 => s2
    | Except.error _ => fail_request s req.id

/-- The queue order `created_date ASC, id ASC`. -/
def reqQueueLE (a b : Request) : Bool :=
  a.created_date.key < b.created_date.key ||
    (a.created_date.key == b.created_date.key && a.id ≤ b.id)

/-- The snapshot of pending requests taken at the start of the drain. -/
def pendingQueue (s : Store) : List Request :=
  sortByLe reqQueueLE (s.requests.filter (fun q => q.status == ReqStatus.pending))

/-- `time_engine._process_all_pending_requests`. -/
def _process_all_pending_requests (s : Store) (current_date : Date) : Store :=
  (pendingQueue s).foldl (fun st req => processOne st req current_date) s

/-- Status of the request with a given id (`None` when absent). -/
def statusOf (s : Store) (rid : ℕ) : Option ReqStatus :=
  (s.requests.find? (fun q => q.id == rid)).map (fun q => q.status)

/-- Tax regime of the certificate with a given id. -/
def regimeOf (s : Store) (cid : ℕ) : Option TaxRegime :=
  (get_certificate s cid).bind (fun c => c.tax_regime)

/-! ## Relations used by the frame and invariant statements -/

/-- How one certificate may evolve during a failed request: unchanged, or
an unset tax regime was set (and nothing else). -/
def certRegimeStep (c c2 : Certificate) : Prop :=
  c2 = c ∨ (c.tax_regime = none ∧ ∃ r, c2 = { c with tax_regime := some r })

/-- How one request row may evolve while request `rid` fails: unchanged,
or it is the failing request and only its status moved to `failed`. -/
def reqFailStep (rid : ℕ) (q q2 : Request) : Prop :=
  q2 = q ∨ (q.id = rid ∧ q2 = { q with status := ReqStatus.failed })

/-- Frame of a failed request: every store component except the failing
request's status and a none→some tax-regime write is untouched. -/
def FrameER (s s2 : Store) (rid : ℕ) : Prop :=
  s2.funds = s.funds ∧ s2.lots = s.lots ∧ s2.holdings = s.holdings ∧
  s2.target_allocs = s.target_allocs ∧ s2.brokerage = s.brokerage ∧
  s2.withdrawals = s.withdrawals ∧ s2.iof_declarations = s.iof_declarations ∧
  s2.iof_thresholds = s.iof_thresholds ∧ s2.portin_schedule = s.portin_schedule ∧
  s2.portin_gain_pct = s.portin_gain_pct ∧ s2.next_lot_id = s.next_lot_id ∧
  s2.next_withdrawal_id = s.next_withdrawal_id ∧
  List.Forall₂ certRegimeStep s.certs s2.certs ∧
  List.Forall₂ (reqFailStep rid) s.requests s2.requests

/-- Minimal well-formedness: the primary keys of `certificates` and
`brokerage_accounts` are unique, as the schema enforces. -/
def StoreWF (s : Store) : Prop :=
  (s.certs.map (fun c => c.id)).Nodup ∧
  (s.brokerage.map (fun b => b.user_id)).Nodup

/-- `ExecOk s s2 req` bundles everything the batch-level claims need from
a normally returning executor run: the request ends non-pending, a failed
request leaves at most its status and an unset tax regime changed, and an
already-set tax regime is never changed. -/
def ExecOk (s s2 : Store) (req : Request) : Prop :=
  statusOf s2 req.id ≠ some ReqStatus.pending ∧
  (statusOf s2 req.id = some ReqStatus.failed → FrameER s s2 req.id) ∧
  (∀ cid r, regimeOf s cid = some r → regimeOf s2 cid = some r)

/-! ## Spec-shaped definitions (for the refinement-style claims) -/

/-- The unit-price rule exactly as the specification words it:
`total_value / unit_supply` when `unit_supply > ε`, else `1.0`. -/
def unit_price_spec (total supply : ℚ) : ℚ :=
  if supply > EPS_UNITS then total / supply else 1

/-- The unit-price rule as the code actually implements it: the `1.0`
bootstrap also applies to a non-positive total value. -/
def unit_price_spec_amended (total supply : ℚ) : ℚ :=
  if supply > EPS_UNITS ∧ 0 < total then total / supply else 1

/-- The IOF excess-over-threshold differencing formula as the
specification words it (no rounding):
`rate × (max(0, before+new−threshold) − max(0, before−threshold))`. -/
def iof_spec_formula (s : Store) (uid : ℕ) (amount : ℚ) (year : ℕ) : ℚ :=
  let lr := get_iof_limit_for_year s year
  let before := userVgblDirectContribs s uid year + get_iof_declaration s uid year
  lr.2 * (max 0 (before + amount - lr.1) - max 0 (before - lr.1))

/-- Post-consumption `(lot id, units_remaining)` view of
`consume_lots_fifo`, `none` on the shortfall exception. -/
def consumeUnitsView (s : Store) (cid : ℕ) (k : ℚ) : Option (List (ℕ × ℚ)) :=
  match consume_lots_fifo s cid k with
  | Except.ok r => some ((r.1.lots.filter (fun l => l.certificate_id == cid)).map
      (fun l => (l.id, l.units_remaining)))
  | Except.error _ => none

/-! ## Concrete stores exercising the claims -/

/-- A withdrawal request that sets the regressive regime and then fails. -/
def regimeSetReq : Request :=
  ⟨1, 1, 1, ReqType.withdrawal,
    ⟨some 100, some TaxRegime.regressive, none, [], none⟩, ReqStatus.pending, ⟨2026,1,1⟩⟩

/-- A store whose only certificate has no tax regime and no holdings, so
`regimeSetReq` fails in `_sell_holdings` after the regime write. -/
def regimeSetStore : Store :=
  { funds := [], certs := [⟨1, 1, PlanType.pgbl, none, 0, 0⟩], lots := [], holdings := [],
    target_allocs := [], brokerage := [], requests := [regimeSetReq], withdrawals := [],
    iof_declarations := [], iof_thresholds := [], portin_schedule := [],
    portin_gain_pct := 80/100, next_lot_id := 1, next_withdrawal_id := 1 }

/-- An external transfer-in of 1000 under a 99.995% port-in schedule. -/
def portinReq : Request :=
  ⟨1, 1, 1, ReqType.transfer_external_in,
    ⟨some 1000, none, none, [], none⟩, ReqStatus.pending, ⟨2026,1,1⟩⟩

/-- A store whose port-in schedule sums to 99.995% — inside the ±0.01
validation tolerance, but 0.05 units short of the issued supply. -/
def portinStore : Store :=
  { funds := [⟨1, 1⟩], certs := [⟨1, 1, PlanType.pgbl, none, 0, 0⟩], lots := [], holdings := [],
    target_allocs := [⟨1, 1, 100⟩], brokerage := [], requests := [portinReq],
    withdrawals := [], iof_declarations := [], iof_thresholds := [],
    portin_schedule := [(99995/1000, 1)],
    portin_gain_pct := 80/100, next_lot_id := 1, next_withdrawal_id := 1 }

/-- A certificate whose stored supply (1000) and lot sum (999.95)
diverge, for exercising `reconcile_certificate_units`. -/
def reconDemoStore : Store :=
  { funds := [], certs := [⟨1, 1, PlanType.pgbl, none, 1000, 0⟩],
    lots := [⟨1, 1, 1000, 1000, ⟨2026,1,1⟩, SourceType.contribution, 1000, 0, 1000,
      99995/100, 1⟩],
    holdings := [], target_allocs := [], brokerage := [], requests := [], withdrawals := [],
    iof_declarations := [], iof_thresholds := [], portin_schedule := [],
    portin_gain_pct := 80/100, next_lot_id := 2, next_withdrawal_id := 1 }

/-- First contribution request of the unit-pricing scenario. -/
def contribReq1 : Request :=
  ⟨1, 1, 1, ReqType.contribution, ⟨some 100, none, none, [], none⟩, ReqStatus.pending, ⟨2026,1,1⟩⟩

/-- Second contribution request of the unit-pricing scenario. -/
def contribReq2 : Request :=
  ⟨2, 1, 1, ReqType.contribution, ⟨some 100, none, none, [], none⟩, ReqStatus.pending, ⟨2026,2,1⟩⟩

/-- Empty certificate, one fund at NAV 1.0, 200 of brokerage cash. -/
def contribStore0 : Store :=
  { funds := [⟨1, 1⟩], certs := [⟨1, 1, PlanType.pgbl, none, 0, 0⟩], lots := [], holdings := [],
    target_allocs := [⟨1, 1, 100⟩], brokerage := [⟨1, 200⟩],
    requests := [contribReq1, contribReq2], withdrawals := [],
    iof_declarations := [], iof_thresholds := [], portin_schedule := [],
    portin_gain_pct := 80/100, next_lot_id := 1, next_withdrawal_id := 1 }

/-- After the first 100 contribution at unit price 1.0. -/
def contribStore1 : Store := processOne contribStore0 contribReq1 ⟨2026,1,1⟩

/-- The same store after the fund NAV doubles to 2.0. -/
def contribStore1b : Store := { contribStore1 with funds := [⟨1, 2⟩] }

/-- After the second 100 contribution at unit price 2.0. -/
def contribStore2 : Store := processOne contribStore1b contribReq2 ⟨2026,2,1⟩

/-- IOF: R$550,000 declared externally, R$600,000 threshold at 5%. -/
def iofDemoStore : Store :=
  { funds := [], certs := [], lots := [], holdings := [], target_allocs := [], brokerage := [],
    requests := [], withdrawals := [], iof_declarations := [(1, 2026, 550000)],
    iof_thresholds := [⟨2025, 2025, 300000, 5/100⟩, ⟨2026, 9999, 600000, 5/100⟩],
    portin_schedule := [], portin_gain_pct := 80/100, next_lot_id := 1, next_withdrawal_id := 1 }

/-- IOF: exactly the R$600,000 threshold already declared. -/
def iofEdgeStore : Store :=
  { iofDemoStore with iof_declarations := [(1, 2026, 600000)] }

/-- Two lots where the older one carries a sub-cent `remaining_amount`,
so the FIFO dust cleanup zeroes it even when units remain. -/
def dustStore : Store :=
  { funds := [], certs := [⟨1, 1, PlanType.pgbl, none, 200, 0⟩],
    lots := [⟨1, 1, 100, 3/200, ⟨2026,1,1⟩, SourceType.contribution, 100, 0, 100, 100, 1⟩,
             ⟨2, 1, 100, 100, ⟨2026,2,1⟩, SourceType.contribution, 100, 0, 100, 100, 1⟩],
    holdings := [], target_allocs := [], brokerage := [], requests := [], withdrawals := [],
    iof_declarations := [], iof_thresholds := [], portin_schedule := [],
    portin_gain_pct := 80/100, next_lot_id := 3, next_withdrawal_id := 1 }

/-- Older lot of the dust-free two-lot FIFO example. -/
def c3L1 : Lot :=
  ⟨1, 1, 100, 100, ⟨2026,1,1⟩, SourceType.contribution, 100, 0, 100, 100, 1⟩

/-- Newer lot of the dust-free two-lot FIFO example. -/
def c3L2 : Lot :=
  ⟨2, 1, 100, 100, ⟨2026,2,1⟩, SourceType.contribution, 100, 0, 100, 100, 1⟩

/-- A certificate with a positive unit supply but zero total value. -/
def zeroValueStore : Store :=
  { funds := [], certs := [⟨1, 1, PlanType.pgbl, none, 1, 0⟩], lots := [], holdings := [],
    target_allocs := [], brokerage := [], requests := [], withdrawals := [],
    iof_declarations := [], iof_thresholds := [], portin_schedule := [],
    portin_gain_pct := 80/100, next_lot_id := 1, next_withdrawal_id := 1 }

/-- A fund-swap request keeping 100% in fund 1. -/
def swapReq : Request :=
  ⟨1, 1, 1, ReqType.fund_swap,
    ⟨none, none, none, [(1, 100)], none⟩, ReqStatus.pending, ⟨2026,1,1⟩⟩

/-- One fund, one holding of 100 units, a 100% target allocation. -/
def swapStore : Store :=
  { funds := [⟨1, 1⟩], certs := [⟨1, 1, PlanType.pgbl, none, 100, 0⟩], lots := [],
    holdings := [⟨1, 1, 100⟩], target_allocs := [⟨1, 1, 100⟩], brokerage := [],
    requests := [swapReq], withdrawals := [],
    iof_declarations := [], iof_thresholds := [], portin_schedule := [],
    portin_gain_pct := 80/100, next_lot_id := 1, next_withdrawal_id := 1 }

/-- `swapStore` after the swap: same lots and certificates, the request
completed. -/
def swapAfter : Store :=
  { funds := [⟨1, 1⟩], certs := [⟨1, 1, PlanType.pgbl, none, 100, 0⟩], lots := [],
    holdings := [⟨1, 1, 100⟩], target_allocs := [⟨1, 1, 100⟩], brokerage := [],
    requests := [⟨1, 1, 1, ReqType.fund_swap,
      ⟨none, none, none, [(1, 100)], none⟩, ReqStatus.completed, ⟨2026,1,1⟩⟩],
    withdrawals := [],
    iof_declarations := [], iof_thresholds := [], portin_schedule := [],
    portin_gain_pct := 80/100, next_lot_id := 1, next_withdrawal_id := 1 }

/-- A brokerage withdrawal against a certificate whose regime is set. -/
def regimeKeepReq : Request :=
  ⟨1, 1, 1, ReqType.brokerage_withdrawal,
    ⟨some 20, none, none, [], none⟩, ReqStatus.pending, ⟨2026,1,1⟩⟩

/-- A store whose certificate already has the progressive regime. -/
def regimeKeepStore : Store :=
  { funds := [], certs := [⟨1, 1, PlanType.pgbl, some TaxRegime.progressive, 0, 0⟩],
    lots := [], holdings := [], target_allocs := [], brokerage := [⟨1, 50⟩],
    requests := [regimeKeepReq], withdrawals := [],
    iof_declarations := [], iof_thresholds := [], portin_schedule := [],
    portin_gain_pct := 80/100, next_lot_id := 1, next_withdrawal_id := 1 }

/-- A certificate with supply 5 and premium 7, for the clamp-at-zero
witness with deltas larger than the stored values. -/
def clampStore : Store :=
  { funds := [], certs := [⟨1, 1, PlanType.vgbl, none, 5, 7⟩], lots := [], holdings := [],
    target_allocs := [], brokerage := [], requests := [], withdrawals := [],
    iof_declarations := [], iof_thresholds := [], portin_schedule := [],
    portin_gain_pct := 80/100, next_lot_id := 1, next_withdrawal_id := 1 }

/-! ## Infrastructure lemmas -/

theorem find?_map_of_pred_inv {α : Type} (g : α → α) (p : α → Bool)
    (hg : ∀ a, p (g a) = p a) (l : List α) :
    (l.map g).find? p = (l.find? p).map g := by
  induction l with
  | nil => rfl
  | cons a t ih =>
    by_cases hpa : p a = true
    · simp [List.find?_cons, hg, hpa]
    · simp only [Bool.not_eq_true] at hpa
      simp [List.find?_cons, hg, hpa, ih]

theorem mem_insertSorted {α : Type} (le : α → α → Bool) (x a : α) (l : List α) :
    a ∈ insertSorted le x l ↔ a ∈ x :: l := by
  induction l with
  | nil => simp [insertSorted]
  | cons y t ih =>
    by_cases h : le x y = true
    · simp [insertSorted, h]
    · simp only [Bool.not_eq_true] at h
      simp only [insertSorted, h, Bool.false_eq_true, if_false, List.mem_cons, ih]
      tauto

theorem mem_sortByLe {α : Type} (le : α → α → Bool) (a : α) (l : List α) :
    a ∈ sortByLe le l ↔ a ∈ l := by
  induction l with
  | nil => simp [sortByLe]
  | cons x t ih => simp [sortByLe, mem_insertSorted, ih]

theorem foldl_proj_eq {β : Type} {f : Store → β → Store} {proj : Store → γ}
    (hf : ∀ st a, proj (f st a) = proj st) (l : List β) (s : Store) :
    proj (l.foldl f s) = proj s := by
  induction l generalizing s with
  | nil => rfl
  | cons a t ih => rw [List.foldl_cons, ih, hf]

/-! Field-projection facts for the store operations. -/

theorem updCert_only_certs (s : Store) (cid : ℕ) (f : Certificate → Certificate) :
    (updCert s cid f).funds = s.funds ∧ (updCert s cid f).lots = s.lots ∧
    (updCert s cid f).holdings = s.holdings ∧
    (updCert s cid f).target_allocs = s.target_allocs ∧
    (updCert s cid f).brokerage = s.brokerage ∧
    (updCert s cid f).requests = s.requests ∧
    (updCert s cid f).withdrawals = s.withdrawals :=
  ⟨rfl, rfl, rfl, rfl, rfl, rfl, rfl⟩

theorem get_certificate_updCert (s : Store) (cid d : ℕ) (f : Certificate → Certificate)
    (hf : ∀ c, (f c).id = c.id) :
    get_certificate (updCert s cid f) d =
      (get_certificate s d).map (fun c => if c.id == cid then f c else c) := by
  unfold get_certificate updCert
  exact find?_map_of_pred_inv _ _ (fun c => by by_cases h : c.id = cid <;> simp [h, hf]) _

theorem regimeOf_eq_of_certs {s1 s2 : Store} (h : s1.certs = s2.certs) (cid : ℕ) :
    regimeOf s1 cid = regimeOf s2 cid := by
  unfold regimeOf get_certificate
  rw [h]

theorem statusOf_eq_of_requests {s1 s2 : Store} (h : s1.requests = s2.requests) (rid : ℕ) :
    statusOf s1 rid = statusOf s2 rid := by
  unfold statusOf
  rw [h]

theorem statusOf_complete_request_self (s : Store) (rid : ℕ) :
    statusOf (complete_request s rid) rid = none ∨
    statusOf (complete_request s rid) rid = some ReqStatus.completed := by
  unfold statusOf complete_request
  rw [find?_map_of_pred_inv _ _ (fun q => by by_cases h : q.id = rid <;> simp [h]) _]
  cases hq : s.requests.find? (fun q => q.id == rid) with
  | none => exact Or.inl rfl
  | some q =>
    have hpq : (q.id == rid) = true := by simpa using List.find?_some hq
    rw [beq_iff_eq] at hpq
    right
    simp [hpq]

theorem statusOf_fail_request_self (s : Store) (rid : ℕ) :
    statusOf (fail_request s rid) rid = none ∨
    statusOf (fail_request s rid) rid = some ReqStatus.failed := by
  unfold statusOf fail_request
  rw [find?_map_of_pred_inv _ _ (fun q => by by_cases h : q.id = rid <;> simp [h]) _]
  cases hq : s.requests.find? (fun q => q.id == rid) with
  | none => exact Or.inl rfl
  | some q =>
    have hpq : (q.id == rid) = true := by simpa using List.find?_some hq
    rw [beq_iff_eq] at hpq
    right
    simp [hpq]

/-! ## Frame relation for failed requests (claim C2) -/

theorem certRegimeStep_refl (c : Certificate) : certRegimeStep c c := Or.inl rfl

theorem certRegimeStep_trans {a b c : Certificate}
    (h1 : certRegimeStep a b) (h2 : certRegimeStep b c) : certRegimeStep a c := by
  rcases h1 with rfl | ⟨hn, r, rfl⟩
  · exact h2
  · rcases h2 with rfl | ⟨hn2, r2, rfl⟩
    · exact Or.inr ⟨hn, r, rfl⟩
    · simp at hn2

theorem reqFailStep_trans {rid : ℕ} {a b c : Request}
    (h1 : reqFailStep rid a b) (h2 : reqFailStep rid b c) : reqFailStep rid a c := by
  rcases h1 with rfl | ⟨hid, rfl⟩
  · exact h2
  · rcases h2 with rfl | ⟨hid2, rfl⟩
    · exact Or.inr ⟨hid, rfl⟩
    · exact Or.inr ⟨hid, rfl⟩

theorem forall₂_refl_of_refl {α : Type} (r : α → α → Prop) (hr : ∀ a, r a a)
    (l : List α) : List.Forall₂ r l l := by
  induction l with
  | nil => exact List.Forall₂.nil
  | cons a t ih => exact List.Forall₂.cons (hr a) ih

theorem forall₂_trans_of_trans {α : Type} (r : α → α → Prop)
    (hr : ∀ a b c, r a b → r b c → r a c) :
    ∀ {l1 l2 l3 : List α}, List.Forall₂ r l1 l2 → List.Forall₂ r l2 l3 →
      List.Forall₂ r l1 l3 := by
  intro l1 l2 l3 h12 h23
  induction h12 generalizing l3 with
  | nil => cases h23; exact List.Forall₂.nil
  | cons hab h ih =>
    cases h23 with
    | cons hbc h23t => exact List.Forall₂.cons (hr _ _ _ hab hbc) (ih h23t)

theorem forall₂_map_self {α : Type} {r : α → α → Prop} (g : α → α) {l : List α}
    (h : ∀ a ∈ l, r a (g a)) : List.Forall₂ r l (l.map g) := by
  induction l with
  | nil => exact List.Forall₂.nil
  | cons a t ih =>
    exact List.Forall₂.cons (h a (List.mem_cons_self a t))
      (ih (fun b hb => h b (List.mem_cons_of_mem a hb)))

theorem FrameER_refl (s : Store) (rid : ℕ) : FrameER s s rid := by
  refine ⟨rfl, rfl, rfl, rfl, rfl, rfl, rfl, rfl, rfl, rfl, rfl, rfl, ?_, ?_⟩
  · exact forall₂_refl_of_refl certRegimeStep certRegimeStep_refl _
  · exact forall₂_refl_of_refl (reqFailStep rid) (fun q => Or.inl rfl) _

theorem FrameER_trans {s1 s2 s3 : Store} {rid : ℕ}
    (h1 : FrameER s1 s2 rid) (h2 : FrameER s2 s3 rid) : FrameER s1 s3 rid := by
  obtain ⟨a1, b1, c1, d1, e1, f1, g1, h1a, i1, j1, k1, l1, m1, n1⟩ := h1
  obtain ⟨a2, b2, c2, d2, e2, f2, g2, h2a, i2, j2, k2, l2, m2, n2⟩ := h2
  refine ⟨a2.trans a1, b2.trans b1, c2.trans c1, d2.trans d1, e2.trans e1, f2.trans f1,
    g2.trans g1, h2a.trans h1a, i2.trans i1, j2.trans j1, k2.trans k1, l2.trans l1, ?_, ?_⟩
  · exact forall₂_trans_of_trans certRegimeStep
      (fun _ _ _ hab hbc => certRegimeStep_trans hab hbc) m1 m2
  · exact forall₂_trans_of_trans (reqFailStep rid)
      (fun _ _ _ hab hbc => reqFailStep_trans hab hbc) n1 n2

theorem FrameER_fail_request (s : Store) (rid : ℕ) :
    FrameER s (fail_request s rid) rid := by
  refine ⟨rfl, rfl, rfl, rfl, rfl, rfl, rfl, rfl, rfl, rfl, rfl, rfl, ?_, ?_⟩
  · exact forall₂_refl_of_refl certRegimeStep certRegimeStep_refl _
  · refine forall₂_map_self _ (fun q _ => ?_)
    by_cases h : q.id = rid
    · exact Or.inr ⟨h, by simp [h]⟩
    · simp only [reqFailStep]
      left
      simp [h]

theorem eq_of_mem_find?_nodup {l : List Certificate} {cid : ℕ} {c0 c : Certificate}
    (hnd : (l.map (fun c => c.id)).Nodup)
    (hf : l.find? (fun c => c.id == cid) = some c0)
    (hc : c ∈ l) (hid : c.id = cid) : c = c0 := by
  induction l with
  | nil => cases hc
  | cons a t ih =>
    simp only [List.map_cons, List.nodup_cons] at hnd
    rcases List.mem_cons.mp hc with rfl | hct
    · rw [List.find?_cons_of_pos _ (by simpa using hid)] at hf
      exact Option.some_injective _ hf
    · by_cases ha : a.id = cid
      · exfalso
        exact hnd.1 (by rw [ha, ← hid]; exact List.mem_map_of_mem _ hct)
      · rw [List.find?_cons_of_neg _ (by simpa using ha)] at hf
        exact ih hnd.2 hf hct

theorem FrameER_set_tax_regime {s : Store} {cid : ℕ} {c0 : Certificate} (r : TaxRegime)
    (rid : ℕ) (hw : StoreWF s) (hf : get_certificate s cid = some c0)
    (h0 : c0.tax_regime = none) :
    FrameER s (set_tax_regime s cid r) rid := by
  refine ⟨rfl, rfl, rfl, rfl, rfl, rfl, rfl, rfl, rfl, rfl, rfl, rfl, ?_, ?_⟩
  · refine forall₂_map_self _ (fun c hc => ?_)
    by_cases h : c.id = cid
    · have hcc0 : c = c0 := eq_of_mem_find?_nodup hw.1 hf hc h
      right
      refine ⟨by rw [hcc0]; exact h0, r, ?_⟩
      simp [h]
    · simp only [certRegimeStep]
      left
      simp [h]
  · exact forall₂_refl_of_refl (reqFailStep rid) (fun q => Or.inl rfl) _

/-! ## Projection lemmas: which fields each operation leaves untouched -/

theorem set_holding_proj (s : Store) (cid fid : ℕ) (u : ℚ) :
    (set_holding s cid fid u).certs = s.certs ∧
    (set_holding s cid fid u).requests = s.requests ∧
    (set_holding s cid fid u).lots = s.lots ∧
    (set_holding s cid fid u).brokerage = s.brokerage ∧
    (set_holding s cid fid u).funds = s.funds ∧
    (set_holding s cid fid u).target_allocs = s.target_allocs ∧
    (set_holding s cid fid u).withdrawals = s.withdrawals ∧
    (set_holding s cid fid u).next_lot_id = s.next_lot_id ∧
    (set_holding s cid fid u).next_withdrawal_id = s.next_withdrawal_id := by
  unfold set_holding
  split
  · exact ⟨rfl, rfl, rfl, rfl, rfl, rfl, rfl, rfl, rfl⟩
  split
  · exact ⟨rfl, rfl, rfl, rfl, rfl, rfl, rfl, rfl, rfl⟩
  · exact ⟨rfl, rfl, rfl, rfl, rfl, rfl, rfl, rfl, rfl⟩

theorem set_brokerage_cash_proj (s : Store) (uid : ℕ) (x : ℚ) :
    (set_brokerage_cash s uid x).certs = s.certs ∧
    (set_brokerage_cash s uid x).requests = s.requests ∧
    (set_brokerage_cash s uid x).lots = s.lots ∧
    (set_brokerage_cash s uid x).holdings = s.holdings ∧
    (set_brokerage_cash s uid x).funds = s.funds ∧
    (set_brokerage_cash s uid x).target_allocs = s.target_allocs ∧
    (set_brokerage_cash s uid x).withdrawals = s.withdrawals ∧
    (set_brokerage_cash s uid x).next_lot_id = s.next_lot_id ∧
    (set_brokerage_cash s uid x).next_withdrawal_id = s.next_withdrawal_id ∧
    (set_brokerage_cash s uid x).iof_declarations = s.iof_declarations ∧
    (set_brokerage_cash s uid x).iof_thresholds = s.iof_thresholds ∧
    (set_brokerage_cash s uid x).portin_schedule = s.portin_schedule ∧
    (set_brokerage_cash s uid x).portin_gain_pct = s.portin_gain_pct := by
  unfold set_brokerage_cash
  split
  · exact ⟨rfl, rfl, rfl, rfl, rfl, rfl, rfl, rfl, rfl, rfl, rfl, rfl, rfl⟩
  · exact ⟨rfl, rfl, rfl, rfl, rfl, rfl, rfl, rfl, rfl, rfl, rfl, rfl, rfl⟩

theorem sell_holdings_proj {s s2 : Store} {cid : ℕ} {amount : ℚ}
    (h : _sell_holdings s cid amount = some s2) :
    s2.certs = s.certs ∧ s2.requests = s.requests ∧ s2.lots = s.lots ∧
    s2.brokerage = s.brokerage ∧ s2.funds = s.funds ∧
    s2.target_allocs = s.target_allocs ∧ s2.withdrawals = s.withdrawals ∧
    s2.next_lot_id = s.next_lot_id ∧ s2.next_withdrawal_id = s.next_withdrawal_id := by
  unfold _sell_holdings at h
  dsimp only at h
  split at h
  · cases h
  split at h
  · cases h
  have h2 := Option.some_injective _ h
  subst h2
  refine ⟨?_, ?_, ?_, ?_, ?_, ?_, ?_, ?_, ?_⟩ <;>
    exact foldl_proj_eq
      (fun st hh => by
        by_cases hu : hh.units ≤ EPS_UNITS
        · simp only [hu, if_pos]
        · simp only [hu, if_neg, Bool.false_eq_true, not_false_eq_true,
            (set_holding_proj st cid hh.fund_id _).1, (set_holding_proj st cid hh.fund_id _).2.1,
            (set_holding_proj st cid hh.fund_id _).2.2.1,
            (set_holding_proj st cid hh.fund_id _).2.2.2.1,
            (set_holding_proj st cid hh.fund_id _).2.2.2.2.1,
            (set_holding_proj st cid hh.fund_id _).2.2.2.2.2.1,
            (set_holding_proj st cid hh.fund_id _).2.2.2.2.2.2.1,
            (set_holding_proj st cid hh.fund_id _).2.2.2.2.2.2.2.1,
            (set_holding_proj st cid hh.fund_id _).2.2.2.2.2.2.2.2])
      _ _

theorem buy_into_proj {s s2 : Store} {cid : ℕ} {amount : ℚ}
    (h : _buy_into_certificate s cid amount = Except.ok s2) :
    s2.certs = s.certs ∧ s2.requests = s.requests ∧ s2.lots = s.lots ∧
    s2.brokerage = s.brokerage ∧ s2.funds = s.funds ∧
    s2.target_allocs = s.target_allocs ∧ s2.withdrawals = s.withdrawals ∧
    s2.next_lot_id = s.next_lot_id ∧ s2.next_withdrawal_id = s.next_withdrawal_id := by
  unfold _buy_into_certificate at h
  dsimp only at h
  split at h
  · cases h
  split at h
  · cases h
    exact ⟨rfl, rfl, rfl, rfl, rfl, rfl, rfl, rfl, rfl⟩
  cases h
  refine ⟨?_, ?_, ?_, ?_, ?_, ?_, ?_, ?_, ?_⟩ <;>
    refine foldl_proj_eq (fun st ta => ?_) _ _ <;>
    · cases hfund : findFund st ta.fund_id with
      | none => simp
      | some fund =>
        simp only [hfund]
        by_cases hnav : fund.current_nav ≤ 0
        · simp [hnav]
        · simp only [hnav, if_neg, Bool.false_eq_true, not_false_eq_true]
          have hp := set_holding_proj st cid ta.fund_id
            ((match st.holdings.find? (fun h => h.certificate_id == cid && h.fund_id == ta.fund_id) with
              | some h => h.units
              | none => 0) + amount * (ta.pct / ((get_target_allocations s cid).map (fun t => t.pct)).sum) / fund.current_nav)
          tauto

theorem consume_ok_proj {s s2 : Store} {cid : ℕ} {k : ℚ} {cons : List ConsumedLot}
    (h : consume_lots_fifo s cid k = Except.ok (s2, cons)) :
    s2.certs = s.certs ∧ s2.requests = s.requests ∧ s2.holdings = s.holdings ∧
    s2.brokerage = s.brokerage ∧ s2.funds = s.funds ∧
    s2.target_allocs = s.target_allocs ∧ s2.withdrawals = s.withdrawals ∧
    s2.next_lot_id = s.next_lot_id ∧ s2.next_withdrawal_id = s.next_withdrawal_id ∧
    s2.lots = applyLotUpdates s.lots (fifoConsume (list_lots_fifo s cid) k).1 := by
  unfold consume_lots_fifo at h
  dsimp only at h
  split at h
  · cases h
  · rw [Except.ok.injEq, Prod.mk.injEq] at h
    obtain ⟨h1, _⟩ := h
    subst h1
    exact ⟨rfl, rfl, rfl, rfl, rfl, rfl, rfl, rfl, rfl, rfl⟩

theorem add_contribution_proj (s : Store) (cid : ℕ) (amount : ℚ) (dt : Date)
    (st : SourceType) (ra ut ur ip ga ia : ℚ) :
    (add_contribution s cid amount dt st ra ut ur ip ga ia).certs = s.certs ∧
    (add_contribution s cid amount dt st ra ut ur ip ga ia).requests = s.requests ∧
    (add_contribution s cid amount dt st ra ut ur ip ga ia).holdings = s.holdings ∧
    (add_contribution s cid amount dt st ra ut ur ip ga ia).brokerage = s.brokerage ∧
    (add_contribution s cid amount dt st ra ut ur ip ga ia).funds = s.funds ∧
    (add_contribution s cid amount dt st ra ut ur ip ga ia).target_allocs = s.target_allocs ∧
    (add_contribution s cid amount dt st ra ut ur ip ga ia).withdrawals = s.withdrawals :=
  ⟨rfl, rfl, rfl, rfl, rfl, rfl, rfl⟩

theorem recreateLots_proj (s : Store) (dcid : ℕ) (cons : List ConsumedLot)
    (amount tdu dup ptm : ℚ) (vgbl : Bool) (st : SourceType) :
    (recreateLots s dcid cons amount tdu dup ptm vgbl st).certs = s.certs ∧
    (recreateLots s dcid cons amount tdu dup ptm vgbl st).requests = s.requests ∧
    (recreateLots s dcid cons amount tdu dup ptm vgbl st).holdings = s.holdings ∧
    (recreateLots s dcid cons amount tdu dup ptm vgbl st).brokerage = s.brokerage ∧
    (recreateLots s dcid cons amount tdu dup ptm vgbl st).funds = s.funds ∧
    (recreateLots s dcid cons amount tdu dup ptm vgbl st).target_allocs = s.target_allocs ∧
    (recreateLots s dcid cons amount tdu dup ptm vgbl st).withdrawals = s.withdrawals := by
  unfold recreateLots
  dsimp only
  refine ⟨?_, ?_, ?_, ?_, ?_, ?_, ?_⟩ <;>
    · refine foldl_proj_eq (fun st2 lot => ?_) _ _
      rfl

theorem set_target_allocations_ok_proj {s s2 : Store} {cid : ℕ}
    {allocations : List (ℕ × ℚ)}
    (h : set_target_allocations s cid allocations = Except.ok s2) :
    s2.certs = s.certs ∧ s2.requests = s.requests ∧ s2.holdings = s.holdings ∧
    s2.brokerage = s.brokerage ∧ s2.funds = s.funds ∧ s2.lots = s.lots ∧
    s2.withdrawals = s.withdrawals ∧ s2.next_lot_id = s.next_lot_id ∧
    s2.next_withdrawal_id = s.next_withdrawal_id := by
  unfold set_target_allocations at h
  dsimp only at h
  split at h
  · cases h
  split at h
  · cases h
  split at h
  · cases h
  · cases h
    exact ⟨rfl, rfl, rfl, rfl, rfl, rfl, rfl, rfl, rfl⟩

/-! ## regimeOf and statusOf preservation -/

theorem regimeOf_updCert {s : Store} {cid : ℕ} {f : Certificate → Certificate}
    (hid : ∀ c, (f c).id = c.id) (hreg : ∀ c, (f c).tax_regime = c.tax_regime)
    (d : ℕ) : regimeOf (updCert s cid f) d = regimeOf s d := by
  unfold regimeOf
  rw [get_certificate_updCert s cid d f hid]
  cases get_certificate s d with
  | none => rfl
  | some c =>
    by_cases h : c.id = cid
    · simp [h, hreg]
    · simp [h]

theorem regimeOf_update_units (s : Store) (cid : ℕ) (delta : ℚ) (d : ℕ) :
    regimeOf (update_certificate_units s cid delta) d = regimeOf s d := by
  unfold update_certificate_units
  refine regimeOf_updCert (fun c => ?_) (fun c => ?_) d <;> rfl

theorem regimeOf_update_premium (s : Store) (cid : ℕ) (delta : ℚ) (d : ℕ) :
    regimeOf (update_vgbl_premium_remaining s cid delta) d = regimeOf s d := by
  unfold update_vgbl_premium_remaining
  refine regimeOf_updCert (fun c => ?_) (fun c => ?_) d <;> rfl

/-- Setting the regime of a certificate whose stored regime is `none`
cannot change any certificate's already-set regime. -/
theorem regimeOf_set_tax_regime {s : Store} {cid2 : ℕ} {c0 : Certificate}
    (hc : get_certificate s cid2 = some c0) (h0 : c0.tax_regime = none)
    (r2 : TaxRegime) {d : ℕ} {r : TaxRegime} (h : regimeOf s d = some r) :
    regimeOf (set_tax_regime s cid2 r2) d = some r := by
  unfold regimeOf at h ⊢
  unfold set_tax_regime
  rw [get_certificate_updCert s cid2 d
    (fun c => { c with tax_regime := some r2 }) (fun c => rfl)]
  cases hgd : get_certificate s d with
  | none => rw [hgd] at h; cases h
  | some c =>
    rw [hgd] at h
    by_cases hcc : c.id = cid2
    · exfalso
      have hfind : s.certs.find? (fun x => x.id == d) = some c := hgd
      have hid2 := List.find?_some hfind
      have hcd : c.id = d := by simpa using hid2
      have hdc : d = cid2 := by rw [← hcd, hcc]
      subst hdc
      rw [hgd] at hc
      cases hc
      simp only [Option.some_bind] at h
      rw [h0] at h
      cases h
    · simp only [Option.some_bind] at h
      simp only [Option.map_some', Option.some_bind]
      rw [if_neg (by simpa using hcc)]
      exact h

theorem statusOf_ne_pending_fail (s : Store) (rid : ℕ) :
    statusOf (fail_request s rid) rid ≠ some ReqStatus.pending := by
  rcases statusOf_fail_request_self s rid with h | h <;> rw [h] <;> simp

theorem statusOf_ne_pending_complete (s : Store) (rid : ℕ) :
    statusOf (complete_request s rid) rid ≠ some ReqStatus.pending := by
  rcases statusOf_complete_request_self s rid with h | h <;> rw [h] <;> simp

theorem statusOf_complete_ne_failed (s : Store) (rid : ℕ) :
    statusOf (complete_request s rid) rid ≠ some ReqStatus.failed := by
  rcases statusOf_complete_request_self s rid with h | h <;> rw [h] <;> simp

/-! ## Brokerage restore (the contribution IOF-refund path) -/

theorem eq_of_mem_find?_nodup_user {l : List BrokerageAccount} {uid : ℕ}
    {b0 b : BrokerageAccount}
    (hnd : (l.map (fun b => b.user_id)).Nodup)
    (hf : l.find? (fun b => b.user_id == uid) = some b0)
    (hb : b ∈ l) (hid : b.user_id = uid) : b = b0 := by
  induction l with
  | nil => cases hb
  | cons a t ih =>
    simp only [List.map_cons, List.nodup_cons] at hnd
    rcases List.mem_cons.mp hb with rfl | hbt
    · rw [List.find?_cons_of_pos _ (by simpa using hid)] at hf
      exact Option.some_injective _ hf
    · by_cases ha : a.user_id = uid
      · exfalso
        exact hnd.1 (by rw [ha, ← hid]; exact List.mem_map_of_mem _ hbt)
      · rw [List.find?_cons_of_neg _ (by simpa using ha)] at hf
        exact ih hnd.2 hf hbt

theorem set_brokerage_cash_of_any {s : Store} {uid : ℕ} (x : ℚ)
    (hex : s.brokerage.any (fun b => b.user_id == uid) = true) :
    set_brokerage_cash s uid x =
      { s with brokerage :=
          s.brokerage.map (fun b => if b.user_id == uid then { b with cash := x } else b) } := by
  unfold set_brokerage_cash
  rw [if_pos hex]

theorem set_set_brokerage_restore {s : Store} {uid : ℕ} (x : ℚ)
    (hnd : (s.brokerage.map (fun b => b.user_id)).Nodup)
    (hex : s.brokerage.any (fun b => b.user_id == uid) = true) :
    (set_brokerage_cash (set_brokerage_cash s uid x) uid
      (get_brokerage_cash s uid)).brokerage = s.brokerage := by
  rw [set_brokerage_cash_of_any x hex]
  have hex2 : ((s.brokerage.map
      (fun b => if b.user_id == uid then { b with cash := x } else b)).any
        (fun b => b.user_id == uid)) = true := by
    rw [List.any_map]
    rw [List.any_eq_true] at hex ⊢
    obtain ⟨b, hb, hbu⟩ := hex
    refine ⟨b, hb, ?_⟩
    by_cases h : b.user_id = uid <;> simp_all
  rw [set_brokerage_cash_of_any _ hex2]
  simp only [List.map_map]
  cases hf : s.brokerage.find? (fun b => b.user_id == uid) with
  | none =>
    rw [List.any_eq_true] at hex
    obtain ⟨b, hb, hbu⟩ := hex
    have hs : (s.brokerage.find? (fun b => b.user_id == uid)).isSome := by
      rw [List.find?_isSome]
      exact ⟨b, hb, hbu⟩
    rw [hf] at hs
    cases hs
  | some b0 =>
    have hget : get_brokerage_cash s uid = b0.cash := by
      unfold get_brokerage_cash
      rw [hf]
    rw [hget]
    have hid : ∀ b ∈ s.brokerage,
        ((fun b => if b.user_id == uid then { b with cash := b0.cash } else b) ∘
          (fun b => if b.user_id == uid then { b with cash := x } else b)) b = b := by
      intro b hb
      by_cases h : b.user_id = uid
      · have hbb0 : b = b0 := eq_of_mem_find?_nodup_user hnd hf hb h
        subst hbb0
        simp only [Function.comp_apply]
        rw [show (if b.user_id == uid then { b with cash := x } else b) =
            { b with cash := x } from if_pos (by simpa using h)]
        rw [if_pos (by simpa using h)]
      · simp [h]
    calc s.brokerage.map _ = s.brokerage.map id := List.map_congr_left hid
    _ = s.brokerage := List.map_id _

/-! ## The master per-executor property -/

theorem FrameER_of_eq_parts {s s2 : Store} (rid : ℕ)
    (h1 : s2.funds = s.funds) (h2 : s2.lots = s.lots) (h3 : s2.holdings = s.holdings)
    (h4 : s2.target_allocs = s.target_allocs) (h5 : s2.brokerage = s.brokerage)
    (h6 : s2.withdrawals = s.withdrawals) (h7 : s2.iof_declarations = s.iof_declarations)
    (h8 : s2.iof_thresholds = s.iof_thresholds) (h9 : s2.portin_schedule = s.portin_schedule)
    (h10 : s2.portin_gain_pct = s.portin_gain_pct) (h11 : s2.next_lot_id = s.next_lot_id)
    (h12 : s2.next_withdrawal_id = s.next_withdrawal_id)
    (hc : s2.certs = s.certs) (hq : s2.requests = s.requests) : FrameER s s2 rid := by
  refine ⟨h1, h2, h3, h4, h5, h6, h7, h8, h9, h10, h11, h12, ?_, ?_⟩
  · rw [hc]
    exact forall₂_refl_of_refl certRegimeStep certRegimeStep_refl _
  · rw [hq]
    exact forall₂_refl_of_refl (reqFailStep rid) (fun q => Or.inl rfl) _

theorem ExecOk_fail (s : Store) (req : Request) :
    ExecOk s (fail_request s req.id) req :=
  ⟨statusOf_ne_pending_fail s req.id, fun _ => FrameER_fail_request s req.id,
    fun cid r hr => (regimeOf_eq_of_certs rfl cid).trans hr⟩

theorem ExecOk_complete_of_regime (s sX : Store) (req : Request)
    (hreg : ∀ cid r, regimeOf s cid = some r → regimeOf sX cid = some r) :
    ExecOk s (complete_request sX req.id) req :=
  ⟨statusOf_ne_pending_complete sX req.id,
    fun hfail => absurd hfail (statusOf_complete_ne_failed sX req.id),
    fun cid r hr => (regimeOf_eq_of_certs rfl cid).trans (hreg cid r hr)⟩

theorem ExecOk_complete_of_certs (s sX : Store) (req : Request)
    (hcerts : sX.certs = s.certs) : ExecOk s (complete_request sX req.id) req :=
  ExecOk_complete_of_regime s sX req
    (fun cid r hr => (regimeOf_eq_of_certs hcerts cid).trans hr)

theorem ExecOk_fail_set_regime {s : Store} {cid : ℕ} {c0 : Certificate} (req : Request)
    (r : TaxRegime) (hw : StoreWF s) (hf : get_certificate s cid = some c0)
    (h0 : c0.tax_regime = none) :
    ExecOk s (fail_request (set_tax_regime s cid r) req.id) req := by
  refine ⟨statusOf_ne_pending_fail _ req.id, fun _ => ?_, fun d r2 hr => ?_⟩
  · exact FrameER_trans (FrameER_set_tax_regime r req.id hw hf h0)
      (FrameER_fail_request _ req.id)
  · exact (regimeOf_eq_of_certs rfl d).trans (regimeOf_set_tax_regime hf h0 r hr)

/-! `regimeOf` pushes through every store write except a regime write. -/

@[simp]
theorem regimeOf_complete_request (s : Store) (rid cid : ℕ) :
    regimeOf (complete_request s rid) cid = regimeOf s cid := rfl

@[simp]
theorem regimeOf_fail_request (s : Store) (rid cid : ℕ) :
    regimeOf (fail_request s rid) cid = regimeOf s cid := rfl

@[simp]
theorem regimeOf_add_contribution (s : Store) (c : ℕ) (amount : ℚ) (dt : Date)
    (st : SourceType) (ra ut ur ip ga ia : ℚ) (cid : ℕ) :
    regimeOf (add_contribution s c amount dt st ra ut ur ip ga ia) cid = regimeOf s cid := rfl

@[simp]
theorem regimeOf_add_withdrawal (s : Store) (c : ℕ) (g t n : ℚ) (dt : Date) (cid : ℕ) :
    regimeOf (add_withdrawal s c g t n dt).1 cid = regimeOf s cid := rfl

@[simp]
theorem regimeOf_set_brokerage_cash (s : Store) (uid : ℕ) (x : ℚ) (cid : ℕ) :
    regimeOf (set_brokerage_cash s uid x) cid = regimeOf s cid :=
  regimeOf_eq_of_certs (set_brokerage_cash_proj s uid x).1 cid

@[simp]
theorem regimeOf_add_brokerage_cash (s : Store) (uid : ℕ) (x : ℚ) (cid : ℕ) :
    regimeOf (add_brokerage_cash s uid x) cid = regimeOf s cid := by
  unfold add_brokerage_cash
  exact regimeOf_set_brokerage_cash s uid _ cid

@[simp]
theorem regimeOf_set_holding (s : Store) (c f : ℕ) (u : ℚ) (cid : ℕ) :
    regimeOf (set_holding s c f u) cid = regimeOf s cid :=
  regimeOf_eq_of_certs (set_holding_proj s c f u).1 cid

@[simp]
theorem regimeOf_update_units_simp (s : Store) (c : ℕ) (delta : ℚ) (cid : ℕ) :
    regimeOf (update_certificate_units s c delta) cid = regimeOf s cid :=
  regimeOf_update_units s c delta cid

@[simp]
theorem regimeOf_update_premium_simp (s : Store) (c : ℕ) (delta : ℚ) (cid : ℕ) :
    regimeOf (update_vgbl_premium_remaining s c delta) cid = regimeOf s cid :=
  regimeOf_update_premium s c delta cid

@[simp]
theorem regimeOf_recreateLots (s : Store) (dcid : ℕ) (cons : List ConsumedLot)
    (amount tdu dup ptm : ℚ) (vgbl : Bool) (st : SourceType) (cid : ℕ) :
    regimeOf (recreateLots s dcid cons amount tdu dup ptm vgbl st) cid = regimeOf s cid :=
  regimeOf_eq_of_certs (recreateLots_proj s dcid cons amount tdu dup ptm vgbl st).1 cid

@[simp]
theorem regimeOf_ite (c : Prop) [Decidable c] (a b : Store) (cid : ℕ) :
    regimeOf (if c then a else b) cid = if c then regimeOf a cid else regimeOf b cid := by
  split <;> rfl

theorem any_of_get_brokerage_ne_zero {s : Store} {uid : ℕ}
    (h : get_brokerage_cash s uid ≠ 0) :
    s.brokerage.any (fun b => b.user_id == uid) = true := by
  unfold get_brokerage_cash at h
  cases hf : s.brokerage.find? (fun b => b.user_id == uid) with
  | none => rw [hf] at h; exact absurd rfl h
  | some b =>
    rw [List.any_eq_true]
    have hp := List.find?_some hf
    exact ⟨b, List.mem_of_find?_eq_some hf, hp⟩

theorem ExecOk_fail_refund {s : Store} (req : Request) (x : ℚ) (hw : StoreWF s)
    (hex : s.brokerage.any (fun b => b.user_id == req.user_id) = true) :
    ExecOk s
      (fail_request
        (set_brokerage_cash (set_brokerage_cash s req.user_id x) req.user_id
          (get_brokerage_cash s req.user_id)) req.id) req := by
  have hbrr := set_set_brokerage_restore x hw.2 hex
  have hp1 := set_brokerage_cash_proj s req.user_id x
  have hp2 := set_brokerage_cash_proj (set_brokerage_cash s req.user_id x) req.user_id
    (get_brokerage_cash s req.user_id)
  refine ⟨statusOf_ne_pending_fail _ _, fun _ => ?_, fun cid r hr => by simpa using hr⟩
  refine FrameER_trans (FrameER_of_eq_parts req.id ?_ ?_ ?_ ?_ ?_ ?_ ?_ ?_ ?_ ?_ ?_ ?_ ?_ ?_)
    (FrameER_fail_request _ req.id)
  · exact hp2.2.2.2.2.1.trans hp1.2.2.2.2.1
  · exact hp2.2.2.1.trans hp1.2.2.1
  · exact hp2.2.2.2.1.trans hp1.2.2.2.1
  · exact hp2.2.2.2.2.2.1.trans hp1.2.2.2.2.2.1
  · exact hbrr
  · exact hp2.2.2.2.2.2.2.1.trans hp1.2.2.2.2.2.2.1
  · exact hp2.2.2.2.2.2.2.2.2.2.1.trans hp1.2.2.2.2.2.2.2.2.2.1
  · exact hp2.2.2.2.2.2.2.2.2.2.2.1.trans hp1.2.2.2.2.2.2.2.2.2.2.1
  · exact hp2.2.2.2.2.2.2.2.2.2.2.2.1.trans hp1.2.2.2.2.2.2.2.2.2.2.2.1
  · exact hp2.2.2.2.2.2.2.2.2.2.2.2.2.trans hp1.2.2.2.2.2.2.2.2.2.2.2.2
  · exact hp2.2.2.2.2.2.2.2.1.trans hp1.2.2.2.2.2.2.2.1
  · exact hp2.2.2.2.2.2.2.2.2.1.trans hp1.2.2.2.2.2.2.2.2.1
  · exact hp2.1.trans hp1.1
  · exact hp2.2.1.trans hp1.2.1

/-! ## Per-executor ExecOk lemmas -/

theorem execOk_brokerage_withdrawal (s : Store) (req : Request) (d : Date) (s2 : Store)
    (hw : StoreWF s) (h : _execute_brokerage_withdrawal s req d = Except.ok s2) :
    ExecOk s s2 req := by
  unfold _execute_brokerage_withdrawal at h
  dsimp only at h
  split at h
  · injection h with h
    subst h
    exact ExecOk_fail s req
  split at h
  · injection h with h
    subst h
    exact ExecOk_fail s req
  · injection h with h
    subst h
    exact ExecOk_complete_of_certs s _ req (set_brokerage_cash_proj s req.user_id _).1

theorem execOk_fund_swap (s : Store) (req : Request) (d : Date) (s2 : Store)
    (hw : StoreWF s) (h : _execute_fund_swap s req d = Except.ok s2) :
    ExecOk s s2 req := by
  unfold _execute_fund_swap at h
  dsimp only at h
  split at h
  · injection h with h
    subst h
    exact ExecOk_fail s req
  rename_i cert hcert
  split at h
  · cases h
  split at h
  · injection h with h
    subst h
    exact ExecOk_fail s req
  split at h
  · injection h with h
    subst h
    exact ExecOk_fail s req
  split at h
  · cases h
  rename_i s1 hs1
  injection h with h
  subst h
  refine ExecOk_complete_of_certs s _ req ?_
  have hc1 : s1.certs = s.certs := (set_target_allocations_ok_proj hs1).1
  have hc2 : ((certHoldings s1 req.certificate_id).foldl
      (fun (st : Store) (hh : Holding) => set_holding st req.certificate_id hh.fund_id 0)
      s1).certs = s1.certs :=
    foldl_proj_eq
      (fun (st : Store) (hh : Holding) =>
        (set_holding_proj st req.certificate_id hh.fund_id 0).1) _ _
  refine Eq.trans ?_ (hc2.trans hc1)
  refine foldl_proj_eq (fun st a => ?_) _ _
  dsimp only
  split
  · rfl
  · split
    · rfl
    · split
      · exact (set_holding_proj st req.certificate_id a.1 _).1
      · rfl

theorem get_certificate_id {s : Store} {cid : ℕ} {c : Certificate}
    (h : get_certificate s cid = some c) : c.id = cid := by
  unfold get_certificate at h
  have hp := List.find?_some h
  simpa using hp

theorem regimeOf_foldl_certs {β : Type} (f : Store → β → Store)
    (hf : ∀ st a, (f st a).certs = st.certs) (l : List β) (s : Store) (cid : ℕ) :
    regimeOf (l.foldl f s) cid = regimeOf s cid :=
  regimeOf_eq_of_certs (foldl_proj_eq hf l s) cid

theorem ExecOk_set_regime_pre {s s2 : Store} {cid : ℕ} {c0 : Certificate} {req : Request}
    (r : TaxRegime) (hw : StoreWF s) (hf : get_certificate s cid = some c0)
    (h0 : c0.tax_regime = none) (h : ExecOk (set_tax_regime s cid r) s2 req) :
    ExecOk s s2 req := by
  obtain ⟨h1, h2, h3⟩ := h
  exact ⟨h1,
    fun hfail => FrameER_trans (FrameER_set_tax_regime r req.id hw hf h0) (h2 hfail),
    fun dd r2 hr => h3 dd r2 (regimeOf_set_tax_regime hf h0 r hr)⟩

theorem withdrawalCore_ok {s1 : Store} (cert : Certificate) (req : Request) (d : Date)
    {s2 : Store} (h : withdrawalCore s1 cert req d = Except.ok s2) : ExecOk s1 s2 req := by
  unfold withdrawalCore at h
  dsimp only at h
  split at h
  · injection h with h
    subst h
    exact ExecOk_fail s1 req
  rename_i sA hsell
  split at h
  · cases h
  rename_i sB cons hcons
  injection h with h
  subst h
  refine ExecOk_complete_of_regime s1 _ req (fun cid r hr => ?_)
  simp only [regimeOf_add_brokerage_cash, regimeOf_update_units_simp, regimeOf_ite,
    regimeOf_update_premium_simp, regimeOf_add_withdrawal, ite_self]
  rw [regimeOf_eq_of_certs (consume_ok_proj hcons).1,
    regimeOf_eq_of_certs (sell_holdings_proj hsell).1]
  exact hr

set_option maxHeartbeats 1600000 in
theorem execOk_withdrawal (s : Store) (req : Request) (d : Date) (s2 : Store)
    (hw : StoreWF s) (h : _execute_withdrawal s req d = Except.ok s2) :
    ExecOk s s2 req := by
  unfold _execute_withdrawal at h
  dsimp only at h
  split at h
  · injection h with h
    subst h
    exact ExecOk_fail s req
  rename_i cert0 hcert
  split at h
  · cases h
  split at h
  · injection h with h
    subst h
    exact ExecOk_fail s req
  split at h
  · exact withdrawalCore_ok cert0 req d h
  rename_i hnone
  split at h
  · rename_i r hdet
    exact ExecOk_set_regime_pre r hw hcert hnone (withdrawalCore_ok _ req d h)
  · injection h with h
    subst h
    exact ExecOk_fail s req

set_option maxHeartbeats 1600000 in
theorem execOk_contribution (s : Store) (req : Request) (d : Date) (s2 : Store)
    (hw : StoreWF s) (h : _execute_contribution s req d = Except.ok s2) :
    ExecOk s s2 req := by
  unfold _execute_contribution at h
  dsimp only at h
  split at h
  · injection h with h
    subst h
    exact ExecOk_fail s req
  rename_i cert hcert
  split at h
  · cases h
  split at h
  · injection h with h
    subst h
    exact ExecOk_fail s req
  rename_i hamt
  split at h
  · injection h with h
    subst h
    exact ExecOk_fail s req
  rename_i hcash
  split at h
  · by_cases hiofpos : calculate_iof_vgbl
        (set_brokerage_cash s req.user_id
          (get_brokerage_cash s req.user_id - req.details.amount.getD 0))
        req.user_id (req.details.amount.getD 0) d.y > 0
    · rw [if_pos hiofpos] at h
      split at h
      · injection h with h
        subst h
        exact ExecOk_fail_refund req _ hw (any_of_get_brokerage_ne_zero
          ((lt_of_lt_of_le (not_le.mp hamt) (not_lt.mp hcash)).ne'))
      · split at h
        · cases h
        rename_i s5 hbuy
        injection h with h
        subst h
        refine ExecOk_complete_of_regime s _ req (fun cid r hr => ?_)
        rw [regimeOf_eq_of_certs (buy_into_proj hbuy).1]
        simp only [regimeOf_ite, regimeOf_update_premium_simp,
          regimeOf_update_units_simp, regimeOf_add_contribution,
          regimeOf_set_brokerage_cash, ite_self]
        exact hr
    · rw [if_neg hiofpos, if_neg hamt] at h
      split at h
      · cases h
      rename_i s5 hbuy
      injection h with h
      subst h
      refine ExecOk_complete_of_regime s _ req (fun cid r hr => ?_)
      rw [regimeOf_eq_of_certs (buy_into_proj hbuy).1]
      simp only [regimeOf_ite, regimeOf_update_premium_simp,
        regimeOf_update_units_simp, regimeOf_add_contribution,
        regimeOf_set_brokerage_cash, ite_self]
      exact hr
  · rw [if_neg (lt_irrefl (0:ℚ)), if_neg hamt] at h
    split at h
    · cases h
    rename_i s5 hbuy
    injection h with h
    subst h
    refine ExecOk_complete_of_regime s _ req (fun cid r hr => ?_)
    rw [regimeOf_eq_of_certs (buy_into_proj hbuy).1]
    simp only [regimeOf_ite, regimeOf_update_premium_simp,
      regimeOf_update_units_simp, regimeOf_add_contribution,
      regimeOf_set_brokerage_cash, ite_self]
    exact hr

set_option maxHeartbeats 1600000 in
theorem execOk_transfer_external_out (s : Store) (req : Request) (d : Date) (s2 : Store)
    (hw : StoreWF s) (h : _execute_transfer_external_out s req d = Except.ok s2) :
    ExecOk s s2 req := by
  unfold _execute_transfer_external_out at h
  dsimp only at h
  split at h
  · injection h with h
    subst h
    exact ExecOk_fail s req
  rename_i cert hcert
  split at h
  · cases h
  split at h
  · injection h with h
    subst h
    exact ExecOk_fail s req
  split at h
  · injection h with h
    subst h
    exact ExecOk_fail s req
  rename_i sA hsell
  split at h
  · cases h
  rename_i sB cons hcons
  injection h with h
  subst h
  refine ExecOk_complete_of_regime s _ req (fun cid r hr => ?_)
  simp only [regimeOf_ite, regimeOf_update_premium_simp, regimeOf_update_units_simp,
    ite_self]
  rw [regimeOf_eq_of_certs (consume_ok_proj hcons).1,
    regimeOf_eq_of_certs (sell_holdings_proj hsell).1]
  exact hr

set_option maxHeartbeats 1600000 in
theorem execOk_transfer_external_in (s : Store) (req : Request) (d : Date) (s2 : Store)
    (hw : StoreWF s) (h : _execute_transfer_external_in s req d = Except.ok s2) :
    ExecOk s s2 req := by
  unfold _execute_transfer_external_in at h
  dsimp only at h
  split at h
  · injection h with h
    subst h
    exact ExecOk_fail s req
  rename_i cert hcert
  split at h
  · cases h
  split at h
  · injection h with h
    subst h
    exact ExecOk_fail s req
  split at h
  · injection h with h
    subst h
    exact ExecOk_fail s req
  split at h
  · injection h with h
    subst h
    exact ExecOk_fail s req
  split at h
  · cases h
  rename_i s4 hbuy
  injection h with h
  subst h
  refine ExecOk_complete_of_regime s _ req (fun cid r hr => ?_)
  rw [regimeOf_eq_of_certs (buy_into_proj hbuy).1]
  simp only [regimeOf_ite, regimeOf_update_premium_simp, regimeOf_update_units_simp,
    ite_self]
  refine Eq.trans (regimeOf_foldl_certs _ (fun st tranche => ?_) _ _ _) hr
  dsimp only
  split
  · rfl
  · rfl

theorem regimeOf_inheritRegime {s : Store} {source dest : Certificate}
    (hdest : get_certificate s dest.id = some dest) {cid : ℕ} {r : TaxRegime}
    (h : regimeOf s cid = some r) : regimeOf (inheritRegime s source dest) cid = some r := by
  unfold inheritRegime
  split
  · rename_i r2 heq1 heq2
    exact regimeOf_set_tax_regime hdest heq2 r2 h
  · exact h

theorem FrameER_inheritRegime {s : Store} {source dest : Certificate} (rid : ℕ)
    (hw : StoreWF s) (hdest : get_certificate s dest.id = some dest) :
    FrameER s (inheritRegime s source dest) rid := by
  unfold inheritRegime
  split
  · rename_i r2 heq1 heq2
    exact FrameER_set_tax_regime r2 rid hw hdest heq2
  · exact FrameER_refl s rid

theorem ExecOk_fail_inherit {s : Store} {source dest : Certificate} (req : Request)
    (hw : StoreWF s) (hdest : get_certificate s dest.id = some dest) :
    ExecOk s (fail_request (inheritRegime s source dest) req.id) req := by
  refine ⟨statusOf_ne_pending_fail _ _, fun _ => ?_, fun cid r hr => ?_⟩
  · exact FrameER_trans (FrameER_inheritRegime req.id hw hdest)
      (FrameER_fail_request _ req.id)
  · simp only [regimeOf_fail_request]
    exact regimeOf_inheritRegime hdest hr

set_option maxHeartbeats 1600000 in
theorem execOk_portability (s : Store) (req : Request) (d : Date) (s2 : Store)
    (hw : StoreWF s) (h : _execute_portability s req d = Except.ok s2) :
    ExecOk s s2 req := by
  unfold _execute_portability at h
  dsimp only at h
  split at h
  · injection h with h
    subst h
    exact ExecOk_fail s req
  rename_i dcid hdcid
  split at h
  · rename_i source_cert dest_cert hsrc hdst
    have hd2 : get_certificate s dest_cert.id = some dest_cert := by
      rw [get_certificate_id hdst]
      exact hdst
    split at h
    · cases h
    split at h
    · cases h
    split at h
    · injection h with h
      subst h
      exact ExecOk_fail s req
    split at h
    · injection h with h
      subst h
      exact ExecOk_fail s req
    split at h
    · injection h with h
      subst h
      exact ExecOk_fail s req
    split at h
    · injection h with h
      subst h
      exact ExecOk_fail_inherit req hw hd2
    rename_i sA hsell
    split at h
    · cases h
    rename_i sB cons hcons
    split at h
    · cases h
    rename_i s8 hbuy
    injection h with h
    subst h
    refine ExecOk_complete_of_regime s _ req (fun cid r hr => ?_)
    refine Eq.trans (regimeOf_foldl_certs (fun st rid => complete_request st rid)
      (fun st rid => rfl) _ _ _) ?_
    rw [regimeOf_eq_of_certs (buy_into_proj hbuy).1]
    simp only [regimeOf_update_units_simp, regimeOf_recreateLots, regimeOf_ite,
      regimeOf_update_premium_simp, ite_self]
    rw [regimeOf_eq_of_certs (consume_ok_proj hcons).1,
      regimeOf_eq_of_certs (sell_holdings_proj hsell).1]
    exact regimeOf_inheritRegime hd2 hr
  · injection h with h
    subst h
    exact ExecOk_fail s req

set_option maxHeartbeats 1600000 in
theorem execOk_transfer_internal (s : Store) (req : Request) (d : Date) (s2 : Store)
    (hw : StoreWF s) (h : _execute_transfer_internal s req d = Except.ok s2) :
    ExecOk s s2 req := by
  unfold _execute_transfer_internal at h
  dsimp only at h
  split at h
  · rename_i dest source hbind hsrc
    obtain ⟨dcid, hdc, hgd⟩ := Option.bind_eq_some.mp hbind
    have hd2 : get_certificate s dest.id = some dest := by
      rw [get_certificate_id hgd]
      exact hgd
    split at h
    · cases h
    split at h
    · cases h
    split at h
    · injection h with h
      subst h
      exact ExecOk_fail s req
    split at h
    · injection h with h
      subst h
      exact ExecOk_fail s req
    split at h
    · injection h with h
      subst h
      exact ExecOk_fail s req
    split at h
    · injection h with h
      subst h
      exact ExecOk_fail_inherit req hw hd2
    split at h
    · injection h with h
      subst h
      exact ExecOk_fail_inherit req hw hd2
    rename_i sA hsell
    split at h
    · cases h
    rename_i sB cons hcons
    split at h
    · cases h
    rename_i s8 hbuy
    injection h with h
    subst h
    refine ExecOk_complete_of_regime s _ req (fun cid r hr => ?_)
    rw [regimeOf_eq_of_certs (buy_into_proj hbuy).1]
    simp only [regimeOf_update_units_simp, regimeOf_recreateLots, regimeOf_ite,
      regimeOf_update_premium_simp, ite_self]
    rw [regimeOf_eq_of_certs (consume_ok_proj hcons).1,
      regimeOf_eq_of_certs (sell_holdings_proj hsell).1]
    exact regimeOf_inheritRegime hd2 hr
  · injection h with h
    subst h
    exact ExecOk_fail s req

/-! ## The request loop -/

/-- One iteration of the request loop is sound: a failed outcome leaves
the rollback frame, and a set tax regime is never changed. -/
theorem processOne_sound (s : Store) (req : Request) (d : Date) (hw : StoreWF s) :
    (statusOf (processOne s req d) req.id = some ReqStatus.failed →
      FrameER s (processOne s req d) req.id) ∧
    (∀ cid r, regimeOf s cid = some r → regimeOf (processOne s req d) cid = some r) := by
  unfold processOne
  cases hrt : req.rtype <;> simp only [hrt, executorFor]
  case contribution =>
    cases hres : _execute_contribution s req d with
    | ok s2 =>
      simp only [hres]
      exact ⟨(execOk_contribution s req d s2 hw hres).2.1,
        (execOk_contribution s req d s2 hw hres).2.2⟩
    | error e =>
      simp only [hres]
      exact ⟨fun _ => FrameER_fail_request s req.id, fun cid r hr => hr⟩
  case withdrawal =>
    cases hres : _execute_withdrawal s req d with
    | ok s2 =>
      simp only [hres]
      exact ⟨(execOk_withdrawal s req d s2 hw hres).2.1,
        (execOk_withdrawal s req d s2 hw hres).2.2⟩
    | error e =>
      simp only [hres]
      exact ⟨fun _ => FrameER_fail_request s req.id, fun cid r hr => hr⟩
  case fund_swap =>
    cases hres : _execute_fund_swap s req d with
    | ok s2 =>
      simp only [hres]
      exact ⟨(execOk_fund_swap s req d s2 hw hres).2.1,
        (execOk_fund_swap s req d s2 hw hres).2.2⟩
    | error e =>
      simp only [hres]
      exact ⟨fun _ => FrameER_fail_request s req.id, fun cid r hr => hr⟩
  case portability_out =>
    cases hres : _execute_portability s req d with
    | ok s2 =>
      simp only [hres]
      exact ⟨(execOk_portability s req d s2 hw hres).2.1,
        (execOk_portability s req d s2 hw hres).2.2⟩
    | error e =>
      simp only [hres]
      exact ⟨fun _ => FrameER_fail_request s req.id, fun cid r hr => hr⟩
  case portability_in =>
    exact ⟨fun _ => FrameER_refl s req.id, fun cid r hr => hr⟩
  case brokerage_withdrawal =>
    cases hres : _execute_brokerage_withdrawal s req d with
    | ok s2 =>
      simp only [hres]
      exact ⟨(execOk_brokerage_withdrawal s req d s2 hw hres).2.1,
        (execOk_brokerage_withdrawal s req d s2 hw hres).2.2⟩
    | error e =>
      simp only [hres]
      exact ⟨fun _ => FrameER_fail_request s req.id, fun cid r hr => hr⟩
  case transfer_internal =>
    cases hres : _execute_transfer_internal s req d with
    | ok s2 =>
      simp only [hres]
      exact ⟨(execOk_transfer_internal s req d s2 hw hres).2.1,
        (execOk_transfer_internal s req d s2 hw hres).2.2⟩
    | error e =>
      simp only [hres]
      exact ⟨fun _ => FrameER_fail_request s req.id, fun cid r hr => hr⟩
  case transfer_external_out =>
    cases hres : _execute_transfer_external_out s req d with
    | ok s2 =>
      simp only [hres]
      exact ⟨(execOk_transfer_external_out s req d s2 hw hres).2.1,
        (execOk_transfer_external_out s req d s2 hw hres).2.2⟩
    | error e =>
      simp only [hres]
      exact ⟨fun _ => FrameER_fail_request s req.id, fun cid r hr => hr⟩
  case transfer_external_in =>
    cases hres : _execute_transfer_external_in s req d with
    | ok s2 =>
      simp only [hres]
      exact ⟨(execOk_transfer_external_in s req d s2 hw hres).2.1,
        (execOk_transfer_external_in s req d s2 hw hres).2.2⟩
    | error e =>
      simp only [hres]
      exact ⟨fun _ => FrameER_fail_request s req.id, fun cid r hr => hr⟩

/-- Every pending request of the store is in the processed queue
snapshot. -/
theorem mem_pendingQueue {s : Store} {q : Request} (hq : q ∈ s.requests)
    (hp : q.status = ReqStatus.pending) : q ∈ pendingQueue s := by
  unfold pendingQueue
  rw [mem_sortByLe]
  exact List.mem_filter.mpr ⟨hq, by simp [hp]⟩

/-- The holdings-clearing fold of `_execute_fund_swap` only touches
holdings. -/
theorem clear_holdings_foldl_proj (s1 : Store) (cid : ℕ) (l : List Holding) :
    (l.foldl (fun st hh => set_holding st cid hh.fund_id 0) s1).certs = s1.certs ∧
    (l.foldl (fun st hh => set_holding st cid hh.fund_id 0) s1).requests = s1.requests ∧
    (l.foldl (fun st hh => set_holding st cid hh.fund_id 0) s1).lots = s1.lots ∧
    (l.foldl (fun st hh => set_holding st cid hh.fund_id 0) s1).brokerage = s1.brokerage ∧
    (l.foldl (fun st hh => set_holding st cid hh.fund_id 0) s1).funds = s1.funds ∧
    (l.foldl (fun st hh => set_holding st cid hh.fund_id 0) s1).withdrawals =
      s1.withdrawals := by
  refine ⟨?_, ?_, ?_, ?_, ?_, ?_⟩ <;>
    · refine foldl_proj_eq (fun st hh => ?_) _ _
      have hp := set_holding_proj st cid hh.fund_id 0
      tauto

/-- The consumption loop stops when the remaining units are dust. -/
theorem fifoConsume_stop {l : List Lot} {k : ℚ} (hk : k ≤ EPS_UNITS) :
    fifoConsume l k = ([], [], k) := by
  cases l with
  | nil => rfl
  | cons c t => rw [fifoConsume, if_pos hk]

/-! ## The claims -/

/-- Claim C2, amended.  When a request's execution fails — an executor
marking it failed, or a raised error rolled back by the loop — the store
satisfies the frame `FrameER`: the failing request's status and at most
one unset-to-set tax-regime write are the only changes (the original
claim's "including tax_regime" is false); and every pending request of
the snapshot is in the processed queue, so subsequent requests in the
batch still run. -/
theorem C2_failed_request_rolls_back_except_regime (s : Store) (req : Request)
    (d : Date) (hw : StoreWF s) :
    (statusOf (processOne s req d) req.id = some ReqStatus.failed →
      FrameER s (processOne s req d) req.id) ∧
    (∀ q ∈ s.requests, q.status = ReqStatus.pending → q ∈ pendingQueue s) :=
  ⟨(processOne_sound s req d hw).1, fun _ hq hp => mem_pendingQueue hq hp⟩

/-- Claim C2 witness: the concrete failing withdrawal of `regimeSetStore`
satisfies the rollback frame. -/
theorem C2_failed_withdrawal_frame_applied :
    FrameER regimeSetStore (processOne regimeSetStore regimeSetReq ⟨2026,1,1⟩)
      regimeSetReq.id :=
  (C2_failed_request_rolls_back_except_regime regimeSetStore regimeSetReq ⟨2026,1,1⟩
    ⟨by decide, by decide⟩).1 (by
      norm_num [processOne, executorFor, _execute_withdrawal, withdrawalCore,
        regimeSetStore, regimeSetReq, statusOf, get_certificate,
        get_certificate_total_value, certHoldings, get_certificate_unit_price, navOf,
        findFund, set_tax_regime, updCert, _sell_holdings, set_holding, fail_request,
        EPS_UNITS])

/-- Claim C2 counterexample: the failed withdrawal leaves the
certificate's `tax_regime` set — the store is not exactly as it was
before the request began. -/
theorem C2_failed_withdrawal_sets_regime :
    statusOf (processOne regimeSetStore regimeSetReq ⟨2026,1,1⟩) 1 =
      some ReqStatus.failed ∧
    regimeOf regimeSetStore 1 = none ∧
    regimeOf (processOne regimeSetStore regimeSetReq ⟨2026,1,1⟩) 1 =
      some TaxRegime.regressive := by
  norm_num [processOne, executorFor, _execute_withdrawal, withdrawalCore, regimeSetStore,
    regimeSetReq, statusOf, regimeOf, get_certificate, get_certificate_total_value,
    certHoldings, get_certificate_unit_price, navOf, findFund, set_tax_regime, updCert,
    _sell_holdings, set_holding, fail_request, EPS_UNITS]

/-- Claim C9.  A certificate whose tax regime is already set keeps it
through any processed request: a withdrawal only sets an unset regime,
and portability and internal transfer only copy onto an unset
destination. -/
theorem C9_tax_regime_set_at_most_once (s : Store) (req : Request) (d : Date)
    (cid : ℕ) (r : TaxRegime) (hw : StoreWF s) (h : regimeOf s cid = some r) :
    regimeOf (processOne s req d) cid = some r :=
  (processOne_sound s req d hw).2 cid r h

/-- Claim C9 witness: the progressive regime of `regimeKeepStore`'s
certificate survives a processed brokerage withdrawal. -/
theorem C9_regime_survives_applied :
    regimeOf (processOne regimeKeepStore regimeKeepReq ⟨2026,1,1⟩) 1 =
      some TaxRegime.progressive :=
  C9_tax_regime_set_at_most_once regimeKeepStore regimeKeepReq ⟨2026,1,1⟩ 1
    TaxRegime.progressive ⟨by decide, by decide⟩ rfl

/-- Claim C1, amended.  `reconcile_certificate_units` recomputes the
supply from the lot sum and rewrites it exactly when they diverge by more
than `1e-6`; after a reconcile the supply always agrees with the lot sum
within that epsilon.  (The claim's "after each executed request" part is
false: see the port-in counterexample.) -/
theorem C1_reconcile_supply_to_lot_sum (s : Store) (cid : ℕ) {c0 : Certificate}
    (hc : get_certificate s cid = some c0) :
    (|c0.unit_supply - reconcileLotSumAdj s cid| > EPS_RECONCILE →
      get_certificate_unit_supply (reconcile_certificate_units s cid).1 cid =
        reconcileLotSumAdj s cid) ∧
    (¬ |c0.unit_supply - reconcileLotSumAdj s cid| > EPS_RECONCILE →
      (reconcile_certificate_units s cid).1 = s) ∧
    |get_certificate_unit_supply (reconcile_certificate_units s cid).1 cid -
      reconcileLotSumAdj s cid| ≤ EPS_RECONCILE := by
  have hsup : get_certificate_unit_supply s cid = c0.unit_supply := by
    unfold get_certificate_unit_supply
    rw [hc]
  have hid : c0.id = cid := get_certificate_id hc
  have hupd : get_certificate
      (updCert s cid (fun c => { c with unit_supply := reconcileLotSumAdj s cid })) cid =
      some { c0 with unit_supply := reconcileLotSumAdj s cid } := by
    rw [get_certificate_updCert s cid cid
      (fun c => { c with unit_supply := reconcileLotSumAdj s cid }) (fun c => rfl), hc]
    simp [hid]
  have h1 : |c0.unit_supply - reconcileLotSumAdj s cid| > EPS_RECONCILE →
      get_certificate_unit_supply (reconcile_certificate_units s cid).1 cid =
        reconcileLotSumAdj s cid := by
    intro hgt
    unfold reconcile_certificate_units
    dsimp only
    rw [hsup, if_pos hgt]
    dsimp only
    unfold get_certificate_unit_supply
    rw [hupd]
  have h2 : ¬ |c0.unit_supply - reconcileLotSumAdj s cid| > EPS_RECONCILE →
      (reconcile_certificate_units s cid).1 = s := by
    intro hle
    unfold reconcile_certificate_units
    dsimp only
    rw [hsup, if_neg hle]
  refine ⟨h1, h2, ?_⟩
  by_cases hgt : |c0.unit_supply - reconcileLotSumAdj s cid| > EPS_RECONCILE
  · rw [h1 hgt, sub_self, abs_zero]
    norm_num [EPS_RECONCILE]
  · rw [h2 hgt, hsup]
    exact not_lt.mp hgt

/-- Claim C1 witness: reconciling `reconDemoStore` rewrites the stored
1000-unit supply to the 999.95-unit lot sum. -/
theorem C1_reconcile_applied :
    get_certificate_unit_supply (reconcile_certificate_units reconDemoStore 1).1 1 =
      99995/100 := by
  have hadj : reconcileLotSumAdj reconDemoStore 1 = 99995/100 := by
    norm_num [reconcileLotSumAdj, reconcileLotSum, reconDemoStore, EPS_UNITS]
  have h := (@C1_reconcile_supply_to_lot_sum reconDemoStore 1
    ⟨1, 1, PlanType.pgbl, none, 1000, 0⟩ rfl).1
  rw [hadj] at h
  exact h (by norm_num [EPS_RECONCILE, abs_eq_max_neg, max_def])

/-- Claim C1 counterexample: after a completed external port-in under the
99.995% schedule, the issued supply (1000) and the lot sum (999.95)
diverge by 0.05 — far beyond the claimed epsilon. -/
theorem C1_portin_breaks_unit_conservation :
    statusOf (_process_all_pending_requests portinStore ⟨2026,6,15⟩) 1 =
      some ReqStatus.completed ∧
    |get_certificate_unit_supply (_process_all_pending_requests portinStore ⟨2026,6,15⟩) 1 -
      reconcileLotSum (_process_all_pending_requests portinStore ⟨2026,6,15⟩) 1| >
      EPS_RECONCILE := by
  have h : statusOf (_process_all_pending_requests portinStore ⟨2026,6,15⟩) 1 =
        some ReqStatus.completed ∧
      get_certificate_unit_supply (_process_all_pending_requests portinStore ⟨2026,6,15⟩) 1 =
        1000 ∧
      reconcileLotSum (_process_all_pending_requests portinStore ⟨2026,6,15⟩) 1 =
        99995/100 := by
    try simp [_process_all_pending_requests, pendingQueue, sortByLe, insertSorted, reqQueueLE,
      processOne, executorFor, _execute_transfer_external_in, portinStore, portinReq,
      statusOf, get_certificate, get_certificate_total_value, certHoldings,
      get_certificate_unit_price, get_certificate_unit_supply, navOf, findFund, updCert,
      update_certificate_units, update_vgbl_premium_remaining, set_holding, fail_request,
      complete_request, add_contribution,
      get_target_allocations, _buy_into_certificate, reconcileLotSum, Date.subYears,
      Date.key, daysInMonth, isLeapYear, min_def, max_def, abs_eq_max_neg, EPS_UNITS]
    try norm_num
    try simp [statusOf, fail_request, complete_request, get_certificate_unit_supply,
      get_certificate, updCert, reconcileLotSum]
    try norm_num
  refine ⟨h.1, ?_⟩
  rw [h.2.1, h.2.2]
  norm_num [EPS_RECONCILE, abs_eq_max_neg, max_def]

/-- Claim C3, amended.  For two lots L1 (older) and L2 (newer), FIFO
consumption via `fifoConsume`/`applyLotUpdates` behaves exactly as
claimed — L1 reduced by `k` and L2 untouched when `k ≤ u1`, L1 zeroed and
L2 reduced by `k − u1` when `u1 < k ≤ u1 + u2` — provided no dust-cleanup
threshold fires: the consumed amounts stay above `1e-9` units and the
surviving lot keeps at least one cent of `remaining_amount` (otherwise
the source zeroes the lot entirely; see the counterexample). -/
theorem C3_two_lot_fifo_no_dust (L1 L2 : Lot) (k : ℚ) (hid : L1.id ≠ L2.id)
    (hk : EPS_UNITS < k) :
    (k ≤ L1.units_remaining →
      EPS_UNITS ≤ L1.units_remaining - k →
      EPS_CENTS ≤ L1.remaining_amount - L1.remaining_amount * (k / L1.units_remaining) →
      applyLotUpdates [L1, L2] (fifoConsume [L1, L2] k).1 =
        [{ L1 with
            units_remaining := L1.units_remaining - k,
            remaining_amount :=
              L1.remaining_amount - L1.remaining_amount * (k / L1.units_remaining) }, L2]) ∧
    (L1.units_remaining < k → k ≤ L1.units_remaining + L2.units_remaining →
      EPS_UNITS < k - L1.units_remaining →
      EPS_UNITS ≤ L2.units_remaining - (k - L1.units_remaining) →
      EPS_CENTS ≤ L2.remaining_amount -
        L2.remaining_amount * ((k - L1.units_remaining) / L2.units_remaining) →
      applyLotUpdates [L1, L2] (fifoConsume [L1, L2] k).1 =
        [{ L1 with units_remaining := 0, remaining_amount := 0 },
         { L2 with
            units_remaining := L2.units_remaining - (k - L1.units_remaining),
            remaining_amount := L2.remaining_amount -
              L2.remaining_amount * ((k - L1.units_remaining) / L2.units_remaining) }]) := by
  have hk' : ¬ k ≤ EPS_UNITS := not_le.mpr hk
  constructor
  · intro hA h1 h2
    rw [fifoConsume, if_neg hk']
    dsimp only
    rw [min_eq_right hA]
    have hu1 : L1.units_remaining > EPS_UNITS := lt_of_lt_of_le hk hA
    rw [if_pos hu1, if_neg (not_lt.mpr h1)]
    dsimp only
    rw [if_neg (not_lt.mpr h2), sub_self,
      fifoConsume_stop (le_of_lt (by norm_num [EPS_UNITS]))]
    dsimp only
    unfold applyLotUpdates
    simp only [List.map_cons, List.map_nil]
    rw [List.find?_cons_of_pos _ (by simp), List.find?_cons_of_neg _ (by simp [hid])]
    simp
  · intro hB1 hB2 hk2 h1 h2
    have hu1k : L1.units_remaining ≤ k := le_of_lt hB1
    rw [fifoConsume, if_neg hk']
    dsimp only
    rw [min_eq_left hu1k, sub_self, if_pos (by norm_num [EPS_UNITS] : (0:ℚ) < EPS_UNITS)]
    dsimp only
    rw [if_pos (by norm_num [EPS_CENTS] : (0:ℚ) < EPS_CENTS)]
    dsimp only
    have hk2' : ¬ k - L1.units_remaining ≤ EPS_UNITS := not_le.mpr hk2
    rw [fifoConsume, if_neg hk2']
    dsimp only
    have hle2 : k - L1.units_remaining ≤ L2.units_remaining := by linarith
    rw [min_eq_right hle2]
    have hu2 : L2.units_remaining > EPS_UNITS := lt_of_lt_of_le hk2 hle2
    rw [if_pos hu2, if_neg (not_lt.mpr h1)]
    dsimp only
    rw [if_neg (not_lt.mpr h2), sub_self,
      fifoConsume_stop (le_of_lt (by norm_num [EPS_UNITS]))]
    dsimp only
    unfold applyLotUpdates
    simp only [List.map_cons, List.map_nil]
    rw [List.find?_cons_of_pos _ (by simp),
      List.find?_cons_of_neg _ (by simp [hid]),
      List.find?_cons_of_pos _ (by simp)]

/-- Claim C3 witness: consuming 30 of 100 dust-free units leaves the
older lot at 70 and the newer lot untouched. -/
theorem C3_two_lot_fifo_applied :
    applyLotUpdates [c3L1, c3L2] (fifoConsume [c3L1, c3L2] 30).1 =
      [⟨1, 1, 100, 70, ⟨2026,1,1⟩, SourceType.contribution, 100, 0, 100, 70, 1⟩, c3L2] := by
  have h := (C3_two_lot_fifo_no_dust c3L1 c3L2 30 (by decide)
    (by norm_num [EPS_UNITS])).1 (by norm_num [c3L1]) (by norm_num [c3L1, EPS_UNITS])
    (by norm_num [c3L1, EPS_CENTS])
  rw [h]
  norm_num [c3L1, c3L2]

set_option maxHeartbeats 1600000 in
/-- Claim C3 counterexample: consuming 50 of the older lot's 100 units
zeroes it entirely (not 50 remaining): its sub-cent `remaining_amount`
triggers the source's dust cleanup. -/
theorem C3_dust_cleanup_zeroes_partial_lot :
    consumeUnitsView dustStore 1 50 = some [(1, 0), (2, 100)] := by
  try simp [consumeUnitsView, consume_lots_fifo, list_lots_fifo, sortByLe, insertSorted,
    lotLE, fifoConsume, applyLotUpdates, dustStore, Date.key, min_def, max_def,
    abs_eq_max_neg, EPS_UNITS, EPS_CENTS, EPS_SHORTFALL]
  try norm_num [consumeUnitsView, consume_lots_fifo, list_lots_fifo, sortByLe, insertSorted,
    lotLE, fifoConsume, applyLotUpdates, dustStore, Date.key, min_def, max_def,
    abs_eq_max_neg, EPS_UNITS, EPS_CENTS, EPS_SHORTFALL]
  try simp [applyLotUpdates]
  try norm_num

/-- Claim C4 (code bug).  At the leap-adjusted 2-calendar-year boundary
the code returns 30%, not the claimed (and unit-tested) 35%: the strict
`<` in `regressive_rate` puts the boundary date in the higher bracket.
The repository's own Test 9 asserts 0.35, 0.35 and 0.15 for these inputs;
the code returns 0.30, 0.30 and 0.10.  The day before the boundary and
the day after behave as expected. -/
theorem C4_regressive_rate_boundary_values :
    regressive_rate ⟨2024,2,29⟩ ⟨2026,2,27⟩ = 35/100 ∧
    regressive_rate ⟨2024,2,29⟩ ⟨2026,2,28⟩ = 30/100 ∧
    regressive_rate ⟨2024,2,29⟩ ⟨2026,3,1⟩ = 30/100 ∧
    regressive_rate ⟨2024,1,1⟩ ⟨2026,1,1⟩ = 30/100 ∧
    regressive_rate ⟨2016,1,1⟩ ⟨2026,1,1⟩ = 10/100 := by
  norm_num [regressive_rate, regressiveRateAux, REGRESSIVE_YEAR_BRACKETS, Date.addYears,
    Date.key, daysInMonth, isLeapYear, min_def]

/-- Claim C5.  Contributing 100 at unit price 1.0 issues 100 units; after
the NAV doubles, contributing another 100 issues exactly 50 more, for a
supply of 150 and a total value of 300 — the price is captured before the
new money is invested. -/
theorem C5_contribution_unit_pricing_scenario :
    statusOf contribStore1 1 = some ReqStatus.completed ∧
    contribStore1.lots.map (fun l => (l.id, l.units_total)) = [(1, 100)] ∧
    get_certificate_unit_price contribStore1b 1 = 2 ∧
    statusOf contribStore2 2 = some ReqStatus.completed ∧
    contribStore2.lots.map (fun l => (l.id, l.units_total)) = [(1, 100), (2, 50)] ∧
    get_certificate_unit_supply contribStore2 1 = 150 ∧
    get_certificate_total_value contribStore2 1 = 300 := by
  try simp [contribStore2, contribStore1b, contribStore1, contribStore0, contribReq1,
    contribReq2, processOne, executorFor, _execute_contribution, statusOf,
    get_certificate, get_certificate_total_value, certHoldings, get_certificate_unit_price,
    get_certificate_unit_supply, navOf, findFund, updCert, update_certificate_units,
    set_holding, get_brokerage_cash, set_brokerage_cash, fail_request, complete_request,
    add_contribution, get_target_allocations, _buy_into_certificate, calculate_iof_vgbl,
    min_def, max_def, EPS_UNITS]
  try norm_num
  try simp [statusOf, fail_request, complete_request, get_certificate_unit_supply,
    get_certificate, updCert, get_certificate_total_value, certHoldings, navOf, findFund,
    set_holding, EPS_UNITS]
  try norm_num

/-- Claim C6, amended.  `calculate_iof_vgbl` equals the claimed
excess-over-threshold differencing formula rounded to whole cents
(`round2`, which the claim omits), and the R$2,500 example is exact.  For
a nonnegative contribution the under-threshold case owes nothing. -/
theorem C6_iof_excess_differencing_rounded (s : Store) (uid : ℕ) (amount : ℚ)
    (year : ℕ) (h : 0 ≤ amount) :
    calculate_iof_vgbl s uid amount year = round2 (iof_spec_formula s uid amount year) := by
  unfold calculate_iof_vgbl iof_spec_formula
  dsimp only
  split
  · rename_i hle
    rw [max_eq_left (sub_nonpos.mpr hle),
      max_eq_left (sub_nonpos.mpr (le_trans (le_add_of_nonneg_right h) hle)),
      sub_zero, mul_zero]
    norm_num [round2]
  · rw [mul_comm]

/-- Claim C6 witness: R$550,000 declared plus a R$100,000 contribution
against the R$600,000 threshold at 5% yields exactly R$2,500. -/
theorem C6_iof_example_2500 :
    calculate_iof_vgbl iofDemoStore 1 100000 2026 = 2500 := by
  rw [C6_iof_excess_differencing_rounded iofDemoStore 1 100000 2026 (by norm_num)]
  norm_num [iof_spec_formula, get_iof_limit_for_year, get_iof_declaration,
    userVgblDirectContribs, iofDemoStore, round2, max_def]

/-- Claim C6 counterexample: at the threshold, an 8-cent contribution
owes 0.004 by the claimed formula but the code rounds the tax to 0 —
the unrounded differencing formula is not what the code returns. -/
theorem C6_iof_rounding_differs_from_formula :
    calculate_iof_vgbl iofEdgeStore 1 (8/100) 2026 = 0 ∧
    iof_spec_formula iofEdgeStore 1 (8/100) 2026 = 1/250 ∧ (0:ℚ) ≠ 1/250 := by
  norm_num [calculate_iof_vgbl, iof_spec_formula, get_iof_limit_for_year,
    get_iof_declaration, userVgblDirectContribs, iofEdgeStore, iofDemoStore, round2,
    max_def]

/-- Claim C7, amended.  `get_certificate_unit_price` is the spec's rule
with one more bootstrap case: it returns `total_value / unit_supply` only
when the supply exceeds ε AND the total value is positive, and 1.0
otherwise (the claim's "1.0 only when supply ≤ ε" is false for a
zero-value certificate; see the counterexample). -/
theorem C7_unit_price_amended_spec (s : Store) (cid : ℕ) :
    get_certificate_unit_price s cid =
      unit_price_spec_amended (get_certificate_total_value s cid)
        (get_certificate_unit_supply s cid) := by
  unfold get_certificate_unit_price unit_price_spec_amended get_certificate_unit_supply
  cases hg : get_certificate s cid with
  | none =>
    dsimp only
    rw [if_neg]
    intro hcon
    exact absurd hcon.1 (by norm_num [EPS_UNITS])
  | some c =>
    dsimp only
    by_cases h1 : c.unit_supply ≤ EPS_UNITS
    · rw [if_pos h1, if_neg (fun hcon => absurd hcon.1 (not_lt.mpr h1))]
    · rw [if_neg h1]
      by_cases h2 : get_certificate_total_value s cid ≤ 0
      · rw [if_pos h2, if_neg (fun hcon => absurd hcon.2 (not_lt.mpr h2))]
      · rw [if_neg h2, if_pos ⟨not_le.mp h1, not_le.mp h2⟩]

/-- Claim C7 counterexample: a certificate with supply 1 (> ε) and total
value 0 is priced 1.0 by the code, but the spec's rule gives 0. -/
theorem C7_unit_price_zero_value_fallback :
    get_certificate_unit_price zeroValueStore 1 = 1 ∧
    unit_price_spec (get_certificate_total_value zeroValueStore 1)
      (get_certificate_unit_supply zeroValueStore 1) = 0 ∧ (1:ℚ) ≠ 0 := by
  norm_num [get_certificate_unit_price, unit_price_spec, get_certificate_total_value,
    get_certificate_unit_supply, get_certificate, certHoldings, navOf, findFund,
    zeroValueStore, EPS_UNITS]

/-- Claim C8.  A fund swap that completes touches no lots and no
certificate row (so unit supply and premium are unchanged), leaves
brokerage, funds and withdrawals alone, and apart from its own request
status changes only holdings and target allocations. -/
theorem C8_fund_swap_touches_no_lots (s : Store) (req : Request) (d : Date) (s2 : Store)
    (h : _execute_fund_swap s req d = Except.ok s2)
    (hc : statusOf s2 req.id = some ReqStatus.completed) :
    s2.lots = s.lots ∧ s2.certs = s.certs ∧ s2.brokerage = s.brokerage ∧
    s2.funds = s.funds ∧ s2.withdrawals = s.withdrawals ∧
    s2.requests = (complete_request s req.id).requests := by
  unfold _execute_fund_swap at h
  dsimp only at h
  split at h
  · injection h with h
    subst h
    rcases statusOf_fail_request_self s req.id with h0 | h0 <;> rw [h0] at hc <;>
      simp at hc
  rename_i cert hcert
  split at h
  · cases h
  split at h
  · injection h with h
    subst h
    rcases statusOf_fail_request_self s req.id with h0 | h0 <;> rw [h0] at hc <;>
      simp at hc
  split at h
  · injection h with h
    subst h
    rcases statusOf_fail_request_self s req.id with h0 | h0 <;> rw [h0] at hc <;>
      simp at hc
  split at h
  · cases h
  rename_i s1 hs1
  injection h with h
  subst h
  have hp1 := set_target_allocations_ok_proj hs1
  have hcl := clear_holdings_foldl_proj s1 req.certificate_id
    (certHoldings s1 req.certificate_id)
  refine ⟨?_, ?_, ?_, ?_, ?_, ?_⟩
  · dsimp only [complete_request]
    refine Eq.trans ?_ (hcl.2.2.1.trans hp1.2.2.2.2.2.1)
    refine foldl_proj_eq (fun st a => ?_) _ _
    dsimp only
    split
    · rfl
    split
    · rfl
    split
    · exact (set_holding_proj st req.certificate_id a.1 _).2.2.1
    · rfl
  · dsimp only [complete_request]
    refine Eq.trans ?_ (hcl.1.trans hp1.1)
    refine foldl_proj_eq (fun st a => ?_) _ _
    dsimp only
    split
    · rfl
    split
    · rfl
    split
    · exact (set_holding_proj st req.certificate_id a.1 _).1
    · rfl
  · dsimp only [complete_request]
    refine Eq.trans ?_ (hcl.2.2.2.1.trans hp1.2.2.2.1)
    refine foldl_proj_eq (fun st a => ?_) _ _
    dsimp only
    split
    · rfl
    split
    · rfl
    split
    · exact (set_holding_proj st req.certificate_id a.1 _).2.2.2.1
    · rfl
  · dsimp only [complete_request]
    refine Eq.trans ?_ (hcl.2.2.2.2.1.trans hp1.2.2.2.2.1)
    refine foldl_proj_eq (fun st a => ?_) _ _
    dsimp only
    split
    · rfl
    split
    · rfl
    split
    · exact (set_holding_proj st req.certificate_id a.1 _).2.2.2.2.1
    · rfl
  · dsimp only [complete_request]
    refine Eq.trans ?_ (hcl.2.2.2.2.2.trans hp1.2.2.2.2.2.2.1)
    refine foldl_proj_eq (fun st a => ?_) _ _
    dsimp only
    split
    · rfl
    split
    · rfl
    split
    · exact (set_holding_proj st req.certificate_id a.1 _).2.2.2.2.2.2.1
    · rfl
  · dsimp only [complete_request]
    congr 1
    refine Eq.trans ?_ (hcl.2.1.trans hp1.2.1)
    refine foldl_proj_eq (fun st a => ?_) _ _
    dsimp only
    split
    · rfl
    split
    · rfl
    split
    · exact (set_holding_proj st req.certificate_id a.1 _).2.1
    · rfl

/-- Claim C8 witness: the concrete completed swap of `swapStore` keeps
lots, certificates, brokerage, funds and withdrawals bit-identical. -/
theorem C8_fund_swap_frame_applied :
    swapAfter.lots = swapStore.lots ∧ swapAfter.certs = swapStore.certs ∧
    swapAfter.brokerage = swapStore.brokerage ∧ swapAfter.funds = swapStore.funds ∧
    swapAfter.withdrawals = swapStore.withdrawals ∧
    swapAfter.requests = (complete_request swapStore swapReq.id).requests :=
  C8_fund_swap_touches_no_lots swapStore swapReq ⟨2026,1,1⟩ swapAfter
    (by
      try simp [_execute_fund_swap, swapStore, swapReq, swapAfter, get_certificate,
        set_target_allocations, get_target_allocations, certHoldings, navOf, findFund,
        set_holding, complete_request, fail_request, updCert, List.nodup_cons,
        min_def, max_def, abs_eq_max_neg, EPS_UNITS]
      try norm_num [set_holding, EPS_UNITS])
    rfl

/-- Claim C10.  `update_certificate_units` and
`update_vgbl_premium_remaining` clamp at zero: for any delta, the updated
certificate stores `max 0 (old + δ)`, which is never negative. -/
theorem C10_unit_supply_clamped_at_zero (s : Store) (cid : ℕ) (delta : ℚ)
    {c0 : Certificate} (hc : get_certificate s cid = some c0) :
    (∃ c1, get_certificate (update_certificate_units s cid delta) cid = some c1 ∧
      c1.unit_supply = max 0 (c0.unit_supply + delta) ∧ 0 ≤ c1.unit_supply) ∧
    (∃ c1, get_certificate (update_vgbl_premium_remaining s cid delta) cid = some c1 ∧
      c1.vgbl_premium_remaining = max 0 (c0.vgbl_premium_remaining + delta) ∧
      0 ≤ c1.vgbl_premium_remaining) := by
  have hid : c0.id = cid := get_certificate_id hc
  constructor
  · refine ⟨{ c0 with unit_supply := max 0 (c0.unit_supply + delta) }, ?_, rfl,
      le_max_left 0 _⟩
    unfold update_certificate_units
    rw [get_certificate_updCert s cid cid
      (fun c => { c with unit_supply := max 0 (c.unit_supply + delta) }) (fun c => rfl), hc]
    simp [hid]
  · refine ⟨{ c0 with vgbl_premium_remaining := max 0 (c0.vgbl_premium_remaining + delta) },
      ?_, rfl, le_max_left 0 _⟩
    unfold update_vgbl_premium_remaining
    rw [get_certificate_updCert s cid cid
      (fun c => { c with vgbl_premium_remaining := max 0 (c.vgbl_premium_remaining + delta) })
      (fun c => rfl), hc]
    simp [hid]

/-- Claim C10 witness: a −10 delta on supply 5 and premium 7 clamps both
at zero. -/
theorem C10_clamp_applied :
    (∃ c1, get_certificate (update_certificate_units clampStore 1 (-10)) 1 = some c1 ∧
      c1.unit_supply = max 0 ((5:ℚ) + (-10)) ∧ 0 ≤ c1.unit_supply) ∧
    (∃ c1, get_certificate (update_vgbl_premium_remaining clampStore 1 (-10)) 1 = some c1 ∧
      c1.vgbl_premium_remaining = max 0 ((7:ℚ) + (-10)) ∧
      0 ≤ c1.vgbl_premium_remaining) :=
  @C10_unit_supply_clamped_at_zero clampStore 1 (-10)
    ⟨1, 1, PlanType.vgbl, none, 5, 7⟩ rfl

end Portal
